import Mathlib

/-!
# Noki launcher (`src/main.cpp`): a shallow embedding

The program is a Win32 launcher.  Every function of `main.cpp` is embedded as a
Lean function that returns the log of the calls it makes (Win32 calls,
standard-library calls and entries into `UpdateProgress`), in program order.
Whatever the operating system or the C++ standard library answers (return
values, out-parameters, a thrown exception) is an input of the embedding,
collected in the structures `WorkerEnv` and `Env`.

Conventions.
* `wchar_t` is a UTF-16 code unit, a `Nat`; `std::wstring` is a list of them.
* Handles (`HWND`, `HANDLE`, `HFONT`, `PSID`) are `Nat`, with `0` for `NULL`.
* `BOOL`, `int`, `WPARAM`, `LPARAM`, `LRESULT` are `Int`; every value the
  program passes in them is a small literal, a handle or an address, so no
  wrap-around is involved.
* A `const wchar_t*` argument is modelled by the string it points to; no
  string of the program contains the terminator `0`.
* Allocation never fails: building a `std::wstring` does not throw.  The one
  throwing operation inside the `try` block of `checkAndLaunch` is
  `fs::exists`.
* Every Win32 call returns.  `MessageBoxW` returns when the dialog is dismissed;
  what its own modal loop dispatches meanwhile is not modelled.
* Of the messages the system sends straight to the window procedure, the model
  has those the source has a case for (`WM_CREATE`, inside `CreateWindowExW`,
  and `WM_DESTROY`, inside `DestroyWindow`); the others only reach `default:`.
-/

namespace NokiLauncher

/-! ## Basic types and the Win32 constants the source uses -/

abbrev wchar_t := Nat
abbrev WString := List wchar_t
abbrev HANDLE := Nat
abbrev BOOL := Int

/-- A wide string literal `L"..."`; every character of the literals in
`main.cpp` lies in the basic multilingual plane, so it is one code unit. -/
def L (s : String) : WString := s.toList.map Char.toNat

def NULL : HANDLE := 0
def TRUE : BOOL := 1
def FALSE : BOOL := 0
def MAX_PATH : Nat := 260
def SECURITY_BUILTIN_DOMAIN_RID : Nat := 0x00000020
def DOMAIN_ALIAS_RID_ADMINS : Nat := 0x00000220

def WM_CREATE : Nat := 0x0001
def WM_DESTROY : Nat := 0x0002
def WM_CLOSE : Nat := 0x0010
def WM_SETFONT : Nat := 0x0030
def WM_USER : Nat := 0x0400
def PBM_SETRANGE : Nat := WM_USER + 1
def PBM_SETPOS : Nat := WM_USER + 2

def MB_OK : Nat := 0x00
def MB_ICONERROR : Nat := 0x10
def SW_NORMAL : Int := 1
def WS_OVERLAPPED : Nat := 0x00000000
def WS_CAPTION : Nat := 0x00C00000
def WS_SYSMENU : Nat := 0x00080000
def WS_MINIMIZEBOX : Nat := 0x00020000
def WS_VISIBLE : Nat := 0x10000000
def WS_CHILD : Nat := 0x40000000
def SS_CENTER : Nat := 0x00000001
def PBS_SMOOTH : Nat := 0x01
def CW_USEDEFAULT : Int := -2147483648
def FW_NORMAL : Int := 400
def FW_BOLD : Int := 700
def GWLP_HINSTANCE : Int := -6
def ICC_PROGRESS_CLASS : Nat := 0x00000020
def CS_VREDRAW : Nat := 0x0001
def CS_HREDRAW : Nat := 0x0002
def COLOR_WINDOW : Nat := 5
def SM_CXSCREEN : Int := 0
def SM_CYSCREEN : Int := 1
def SWP_NOSIZE : Nat := 0x0001
def SWP_NOZORDER : Nat := 0x0004

/-- The macro `MAKELPARAM(lo, hi)`: two 16-bit words packed into one value. -/
def MAKELPARAM (lo hi : Nat) : Int := ((lo % 65536) + (hi % 65536) * 65536 : Nat)

/-- The block `STARTUPINFOW`, field by field. -/
structure STARTUPINFOW where
  cb : Nat
  lpReserved : Option WString
  lpDesktop : Option WString
  lpTitle : Option WString
  dwX : Nat
  dwY : Nat
  dwXSize : Nat
  dwYSize : Nat
  dwXCountChars : Nat
  dwYCountChars : Nat
  dwFillAttribute : Nat
  dwFlags : Nat
  wShowWindow : Nat
  cbReserved2 : Nat
  lpReserved2 : HANDLE
  hStdInput : HANDLE
  hStdOutput : HANDLE
  hStdError : HANDLE
  deriving DecidableEq, Repr

/-- The aggregate initialisation `STARTUPINFOW si = { sizeof(si) }`: the first
member gets the size, every other member is zero-initialised. -/
def STARTUPINFOW.init (size : Nat) : STARTUPINFOW :=
  { cb := size, lpReserved := none, lpDesktop := none, lpTitle := none,
    dwX := 0, dwY := 0, dwXSize := 0, dwYSize := 0, dwXCountChars := 0,
    dwYCountChars := 0, dwFillAttribute := 0, dwFlags := 0, wShowWindow := 0,
    cbReserved2 := 0, lpReserved2 := 0, hStdInput := 0, hStdOutput := 0,
    hStdError := 0 }

/-- The ten arguments of one `CreateProcessW` call; a null pointer argument is
`none` (the last one, `&pi`, is an out-parameter and is part of the answer). -/
structure CreateProcessArgs where
  lpApplicationName : Option WString
  lpCommandLine : Option WString
  lpProcessAttributes : Option Nat
  lpThreadAttributes : Option Nat
  bInheritHandles : BOOL
  dwCreationFlags : Nat
  lpEnvironment : Option Nat
  lpCurrentDirectory : Option WString
  lpStartupInfo : STARTUPINFOW
  deriving DecidableEq, Repr

/-- The members of `SHELLEXECUTEINFOW` that `RestartAsAdmin` sets; the
remaining ones are zero. -/
structure SHELLEXECUTEINFOW where
  cbSize : Nat
  lpVerb : WString
  lpFile : WString
  hwnd : HANDLE
  nShow : Int
  deriving DecidableEq, Repr

/-- The members of `WNDCLASSW` as `RegisterWindowClass` fills them in;
`lpfnWndProc` is always `WindowProc` and the icon and cursor are the handles
the two load calls returned. -/
structure WNDCLASSW where
  style : Nat
  cbClsExtra : Int
  cbWndExtra : Int
  hInstance : HANDLE
  hIcon : HANDLE
  hCursor : HANDLE
  hbrBackground : Nat
  lpszMenuName : Option WString
  lpszClassName : WString
  deriving DecidableEq, Repr

/-- The arguments of a `CreateWindowW` / `CreateWindowExW` call. -/
structure CreateWindowArgs where
  dwExStyle : Nat
  lpClassName : WString
  lpWindowName : Option WString
  dwStyle : Nat
  X : Int
  Y : Int
  nWidth : Int
  nHeight : Int
  hWndParent : HANDLE
  hMenu : HANDLE
  hInstance : HANDLE
  deriving DecidableEq, Repr

/-- A queued message, the part of `MSG` that `DispatchMessage` hands on. -/
structure MSG where
  hwnd : HANDLE
  message : Nat
  wParam : Int
  lParam : Int
  deriving DecidableEq, Repr

/-- One entry of a call log.  Except for `enter_UpdateProgress` (the entry into
the program's own function `UpdateProgress`, with its two arguments) and
`thread_detach` (the statement `std::thread(checkAndLaunch, hwnd).detach()`),
each constructor is a call into Win32 or the C++ library, with the arguments
the source passes; constant arguments that nothing depends on (the resource ids
of `LoadIcon` and `LoadCursor`, the unused parameters of `CreateFontW`, the zero
sub-authorities of `AllocateAndInitializeSid`) are left out. -/
inductive Call where
  | enter_UpdateProgress (percentage : Int) (message : WString)
  | SetWindowTextW (hWnd : HANDLE) (lpString : WString)
  | SendMessage (hWnd : HANDLE) (Msg : Nat) (wParam : Int) (lParam : Int)
  | PostMessage (hWnd : HANDLE) (Msg : Nat) (wParam : Int) (lParam : Int)
  | MessageBoxW (hWnd : HANDLE) (lpText : WString) (lpCaption : WString) (uType : Nat)
  | GetModuleFileNameW (hModule : HANDLE) (nSize : Nat)
  | sleep_for (milliseconds : Nat)
  | fs_exists (p : WString)
  | CreateProcessW (args : CreateProcessArgs)
  | CloseHandle (hObject : HANDLE)
  | GetLastError
  | operator_new (address : Int) (value : WString)
  | operator_delete (address : Int)
  | AllocateAndInitializeSid (nSubAuthorityCount : Nat) (nSubAuthority0 : Nat)
      (nSubAuthority1 : Nat)
  | CheckTokenMembership (TokenHandle : HANDLE) (SidToCheck : HANDLE)
  | FreeSid (pSid : HANDLE)
  | ShellExecuteExW (sei : SHELLEXECUTEINFOW)
  | InitCommonControlsEx (dwICC : Nat)
  | LoadIcon (hInstance : HANDLE)
  | LoadCursor (hInstance : HANDLE)
  | RegisterClassW (wc : WNDCLASSW)
  | CreateWindowExW (args : CreateWindowArgs)
  | CreateWindowW (args : CreateWindowArgs)
  | GetWindowLongPtr (hWnd : HANDLE) (nIndex : Int)
  | CreateFontW (cHeight : Int) (cWeight : Int) (pszFaceName : WString)
  | thread_detach (hwnd : HANDLE)
  | PostQuitMessage (nExitCode : Int)
  | DestroyWindow (hWnd : HANDLE)
  | DefWindowProc (hWnd : HANDLE) (Msg : Nat) (wParam : Int) (lParam : Int)
  | GetWindowRect (hWnd : HANDLE)
  | GetSystemMetrics (nIndex : Int)
  | SetWindowPos (hWnd : HANDLE) (hWndInsertAfter : HANDLE) (X : Int) (Y : Int)
      (cx : Int) (cy : Int) (uFlags : Nat)
  | ShowWindow (hWnd : HANDLE) (nCmdShow : Int)
  | UpdateWindow (hWnd : HANDLE)
  | GetMessage
  | TranslateMessage (msg : MSG)
  | DispatchMessage (msg : MSG)
  deriving DecidableEq, Repr

/-! ## The worker: `UpdateProgress` and `checkAndLaunch` -/

/-- The two operations of `std::filesystem::path` that `checkAndLaunch` uses,
on the native (wide) representation of a path.  They are library code, so the
embedding takes them as given. -/
structure PathOps where
  /-- The member `path::parent_path()`. -/
  parent_path : WString → WString
  /-- The operator `lhs / rhs`. -/
  append : WString → WString → WString

/-- What `fs::exists(exe_path)` does: it returns a `bool`, or it throws an
exception whose `what()` is the given narrow string (a list of `char` values). -/
inductive ExistsOutcome where
  | returns (b : Bool)
  | throws (what : List Int)
  deriving DecidableEq, Repr

/-- The process-wide control handles `g_hStaticText` and `g_hProgressBar`, as
the worker finds them. -/
structure Globals where
  g_hStaticText : HANDLE
  g_hProgressBar : HANDLE
  deriving DecidableEq, Repr

/-- Everything the environment answers during one run of `checkAndLaunch`. -/
structure WorkerEnv where
  /-- The library behind `fs::path`. -/
  fs : PathOps
  /-- The string `GetModuleFileNameW` leaves in `current_path`. -/
  current_path : WString
  /-- The outcome of `fs::exists(exe_path)`. -/
  exists_outcome : ExistsOutcome
  /-- The platform's `sizeof(STARTUPINFOW)`. -/
  sizeof_si : Nat
  /-- The value `CreateProcessW` returns. -/
  CreateProcessW_ret : BOOL
  /-- The handle `pi.hProcess` after the call. -/
  hProcess : HANDLE
  /-- The handle `pi.hThread` after the call. -/
  hThread : HANDLE
  /-- The value `GetLastError()` returns, a `DWORD`. -/
  last_error : Nat
  /-- The address `new std::wstring(error_msg)` returns. -/
  new_ret : Int

/-- The function `std::to_wstring(unsigned long)`: the decimal digits. -/
def to_wstring (n : Nat) : WString := (Nat.toDigits 10 n).map Char.toNat

/-- The conversion of one `char` to `wchar_t` (an unsigned 16-bit type) that
`std::wstring(error_str.begin(), error_str.end())` applies to each element. -/
def widen (c : Int) : wchar_t := (c % 65536).toNat

/-- `void UpdateProgress(int percentage, const std::wstring& message)`. -/
def UpdateProgress (g : Globals) (percentage : Int) (message : WString) : List Call :=
  [Call.enter_UpdateProgress percentage message]
    ++ (if g.g_hStaticText ≠ NULL then [Call.SetWindowTextW g.g_hStaticText message] else [])
    ++ (if g.g_hProgressBar ≠ NULL then
          [Call.SendMessage g.g_hProgressBar PBM_SETPOS percentage 0] else [])

/-- The path `exe_path` that `checkAndLaunch` computes:
`fs::path(current_path).parent_path() / "dist" / "Noki_HBR_Auto.exe"`. -/
def exe_path (env : WorkerEnv) : WString :=
  let current_dir := env.fs.parent_path env.current_path
  env.fs.append (env.fs.append current_dir (L "dist")) (L "Noki_HBR_Auto.exe")

/-- The argument list of the `CreateProcessW` call in `checkAndLaunch`. -/
def createProcessArgs (env : WorkerEnv) : CreateProcessArgs :=
  { lpApplicationName := none
    lpCommandLine := some (exe_path env)
    lpProcessAttributes := none
    lpThreadAttributes := none
    bInheritHandles := FALSE
    dwCreationFlags := 0
    lpEnvironment := none
    lpCurrentDirectory := none
    lpStartupInfo := STARTUPINFOW.init env.sizeof_si }

/-- The calls every run of the worker starts with. -/
def workerPrologue (g : Globals) (env : WorkerEnv) : List Call :=
  [Call.GetModuleFileNameW NULL MAX_PATH]
    ++ UpdateProgress g 10 (L "正在初始化...")
    ++ [Call.sleep_for 300]
    ++ UpdateProgress g 30 (L "检查目标文件是否存在...")
    ++ [Call.sleep_for 500]
    ++ [Call.fs_exists (exe_path env)]

/-- `void checkAndLaunch(HWND hwnd)`, the worker sequence: the log of its
calls. -/
def checkAndLaunch (g : Globals) (env : WorkerEnv) (hwnd : HANDLE) : List Call :=
  [Call.GetModuleFileNameW NULL MAX_PATH]
    ++ UpdateProgress g 10 (L "正在初始化...")
    ++ [Call.sleep_for 300]
    ++ UpdateProgress g 30 (L "检查目标文件是否存在...")
    ++ [Call.sleep_for 500]
    ++ [Call.fs_exists (exe_path env)]
    ++ (match env.exists_outcome with
        | ExistsOutcome.returns true =>
          UpdateProgress g 60 (L "正在启动目标程序...")
            ++ [Call.sleep_for 500]
            ++ [Call.CreateProcessW (createProcessArgs env)]
            ++ (if env.CreateProcessW_ret ≠ 0 then
                  [Call.CloseHandle env.hProcess, Call.CloseHandle env.hThread]
                    ++ UpdateProgress g 100 (L "启动成功！")
                    ++ [Call.sleep_for 1000]
                    ++ [Call.PostMessage hwnd WM_CLOSE 0 0]
                else
                  let error := env.last_error
                  let error_msg := L "无法启动程序: " ++ exe_path env
                    ++ L "\n错误代码: " ++ to_wstring error
                  [Call.GetLastError,
                   Call.operator_new env.new_ret error_msg,
                   Call.PostMessage hwnd (WM_USER + 1) 0 env.new_ret])
        | ExistsOutcome.returns false =>
          let error_msg := L "目标程序不存在:\n" ++ exe_path env
          [Call.operator_new env.new_ret error_msg,
           Call.PostMessage hwnd (WM_USER + 1) 0 env.new_ret]
        | ExistsOutcome.throws what =>
          let error_msg := L "发生异常: " ++ what.map widen
          [Call.operator_new env.new_ret error_msg,
           Call.PostMessage hwnd (WM_USER + 1) 0 env.new_ret])

/-! ## Reading a call log -/

/-- The percentages passed to `UpdateProgress`, in call order. -/
def percentages (log : List Call) : List Int :=
  log.filterMap fun c =>
    match c with
    | Call.enter_UpdateProgress p _ => some p
    | _ => none

/-- The `CreateProcessW` calls in a log, by their arguments. -/
def createProcessCalls (log : List Call) : List CreateProcessArgs :=
  log.filterMap fun c =>
    match c with
    | Call.CreateProcessW a => some a
    | _ => none

/-- The `PostMessage` calls in a log. -/
def postedMessages (log : List Call) : List MSG :=
  log.filterMap fun c =>
    match c with
    | Call.PostMessage h m w l => some ⟨h, m, w, l⟩
    | _ => none

/-- The strings allocated by `new std::wstring(...)` in a log, by address. -/
def allocations (log : List Call) : List (Int × WString) :=
  log.filterMap fun c =>
    match c with
    | Call.operator_new a v => some (a, v)
    | _ => none

/-- The handles passed to `CloseHandle`, in call order. -/
def closedHandles (log : List Call) : List HANDLE :=
  log.filterMap fun c =>
    match c with
    | Call.CloseHandle h => some h
    | _ => none


/-! ## The entry point and the UI thread -/

/-- Everything the environment answers during one run of `WinMain`. -/
structure Env where
  /-- The value `AllocateAndInitializeSid` returns. -/
  AllocateAndInitializeSid_ret : BOOL
  /-- The SID it stores in `adminGroup`. -/
  adminGroup : HANDLE
  /-- The value `CheckTokenMembership` returns. -/
  CheckTokenMembership_ret : BOOL
  /-- The value `CheckTokenMembership` leaves in `isAdmin`. -/
  IsMember : BOOL
  /-- The string `GetModuleFileNameW` leaves in `currentPath` (in
  `RestartAsAdmin`). -/
  currentPath : WString
  /-- The platform's `sizeof(SHELLEXECUTEINFOW)`. -/
  sizeof_sei : Nat
  /-- The value `ShellExecuteExW` returns. -/
  ShellExecuteExW_ret : BOOL
  /-- The argument `hInstance` of `WinMain`. -/
  hInstance : HANDLE
  /-- The argument `nCmdShow` of `WinMain`. -/
  nCmdShow : Int
  /-- The handle `LoadIcon` returns. -/
  hIcon : HANDLE
  /-- The handle `LoadCursor` returns. -/
  hCursor : HANDLE
  /-- The atom `RegisterClassW` returns, `0` on failure. -/
  RegisterClassW_ret : Nat
  /-- The handle `CreateWindowExW` returns, `NULL` on failure. -/
  CreateWindowExW_ret : HANDLE
  /-- The value `GetWindowLongPtr(hwnd, GWLP_HINSTANCE)` returns. -/
  GetWindowLongPtr_ret : HANDLE
  /-- The handle of the title label, from the first `CreateWindowW`. -/
  hTitle : HANDLE
  /-- The font handle from the first `CreateFontW`. -/
  hTitleFont : HANDLE
  /-- The handle of the status label, from the second `CreateWindowW`. -/
  hStaticText : HANDLE
  /-- The font handle from the second `CreateFontW`. -/
  hStatusFont : HANDLE
  /-- The handle of the progress bar, from the third `CreateWindowW`. -/
  hProgressBar : HANDLE
  /-- The rectangle `GetWindowRect` stores in `rc`. -/
  rc_left : Int
  rc_top : Int
  rc_right : Int
  rc_bottom : Int
  /-- The value `GetSystemMetrics(SM_CXSCREEN)` returns. -/
  cxScreen : Int
  /-- The value `GetSystemMetrics(SM_CYSCREEN)` returns. -/
  cyScreen : Int
  /-- The answers given to the worker thread. -/
  worker : WorkerEnv
  /-- The messages the system and the user queue for the UI thread after the
  worker has started and before the worker's own `PostMessage`. -/
  queued_before : List MSG
  /-- The messages queued after the worker's `PostMessage`. -/
  queued_after : List MSG

/-- The state the UI thread runs in: the program's globals, the part of the
window manager's state that the program depends on, the live `std::wstring`
objects made with `new`, and the call logs of the two threads. -/
structure UiState where
  /-- The global `g_hWnd`. -/
  g_hWnd : HANDLE
  /-- The globals `g_hStaticText` and `g_hProgressBar`. -/
  g : Globals
  /-- The live window of class `NokiLauncherWindow`, if there is one. -/
  window : Option HANDLE
  /-- The posted-message queue of the UI thread, oldest first. -/
  queue : List MSG
  /-- The exit code of a pending `WM_QUIT`, set by `PostQuitMessage`. -/
  quit : Option Int
  /-- The strings allocated with `new` and not yet deleted, by address. -/
  heap : List (Int × WString)
  /-- The calls made on the UI thread, in order. -/
  ui_log : List Call
  /-- The calls made on the worker thread, in order. -/
  worker_log : List Call
  deriving DecidableEq, Repr

/-- The state `WinMain` starts in: every global is `NULL`, nothing exists. -/
def UiState.init : UiState :=
  { g_hWnd := NULL, g := ⟨NULL, NULL⟩, window := none, queue := [], quit := none,
    heap := [], ui_log := [], worker_log := [] }

/-- Appends calls to the UI thread's log. -/
def UiState.log (s : UiState) (cs : List Call) : UiState :=
  { s with ui_log := s.ui_log ++ cs }

/-- `bool IsRunningAsAdmin()`: the result and the calls made. -/
def IsRunningAsAdmin (env : Env) : Bool × List Call :=
  let isAdmin : BOOL := FALSE
  if env.AllocateAndInitializeSid_ret ≠ 0 then
    let isAdmin : BOOL := env.IsMember
    let isAdmin : BOOL := if env.CheckTokenMembership_ret = 0 then FALSE else isAdmin
    (decide (isAdmin = TRUE),
      [Call.AllocateAndInitializeSid 2 SECURITY_BUILTIN_DOMAIN_RID DOMAIN_ALIAS_RID_ADMINS,
       Call.CheckTokenMembership NULL env.adminGroup,
       Call.FreeSid env.adminGroup])
  else
    (decide (isAdmin = TRUE),
      [Call.AllocateAndInitializeSid 2 SECURITY_BUILTIN_DOMAIN_RID DOMAIN_ALIAS_RID_ADMINS])

/-- `bool RestartAsAdmin()`: the result and the calls made. -/
def RestartAsAdmin (env : Env) : Bool × List Call :=
  let sei : SHELLEXECUTEINFOW :=
    { cbSize := env.sizeof_sei, lpVerb := L "runas", lpFile := env.currentPath,
      hwnd := NULL, nShow := SW_NORMAL }
  (decide (env.ShellExecuteExW_ret = TRUE),
    [Call.GetModuleFileNameW NULL MAX_PATH, Call.ShellExecuteExW sei])

/-- `void ShowErrorMessage(const std::wstring& message)`. -/
def ShowErrorMessage (message : WString) : List Call :=
  [Call.MessageBoxW NULL message (L "启动器错误") (MB_ICONERROR ||| MB_OK)]

/-- The call `PostMessage(hwnd, Msg, wParam, lParam)` made on the UI thread:
the message joins the queue when `hwnd` is the live window, and the call fails
without effect otherwise. -/
def PostMessage (hwnd : HANDLE) (Msg : Nat) (wParam lParam : Int) (s : UiState) : UiState :=
  let s := s.log [Call.PostMessage hwnd Msg wParam lParam]
  if s.window = some hwnd then { s with queue := s.queue ++ [⟨hwnd, Msg, wParam, lParam⟩] }
  else s

/-- The call `PostQuitMessage(nExitCode)`: a `WM_QUIT` becomes pending. -/
def PostQuitMessage (nExitCode : Int) (s : UiState) : UiState :=
  { s.log [Call.PostQuitMessage nExitCode] with quit := some nExitCode }

/-- The body of `case WM_DESTROY:` in `WindowProc`. -/
def WindowProc_WM_DESTROY (s : UiState) : UiState :=
  PostQuitMessage 0 s

/-- The call `DestroyWindow(hwnd)`.  When `hwnd` is the live window the system
sends it `WM_DESTROY` (so the `WM_DESTROY` case of `WindowProc` runs inside the
call), destroys it and discards the messages still queued for it; for any
other handle the call fails without effect. -/
def DestroyWindow (hwnd : HANDLE) (s : UiState) : UiState :=
  let s := s.log [Call.DestroyWindow hwnd]
  if s.window = some hwnd then
    let s := WindowProc_WM_DESTROY s
    { s with window := none, queue := s.queue.filter fun m => decide (m.hwnd ≠ hwnd) }
  else s

/-- `void HandleErrorMessage(HWND hwnd, LPARAM lParam)`.  The result is `none`
when `lParam` is not the address of a live string: the cast and dereference
are then undefined behaviour. -/
def HandleErrorMessage (hwnd : HANDLE) (lParam : Int) (s : UiState) : Option UiState :=
  match s.heap.lookup lParam with
  | none => none
  | some error_msg =>
    let s := s.log (ShowErrorMessage error_msg)
    let s := { s.log [Call.operator_delete lParam] with
                heap := s.heap.filter fun e => decide (e.1 ≠ lParam) }
    some (PostMessage hwnd WM_CLOSE 0 0 s)

/-- The statement `std::thread(checkAndLaunch, hwnd).detach()`.  The worker
runs `checkAndLaunch` with the globals as they are now.  Its string, if it
allocates one, joins the heap; the messages it posts reach the queue of the UI
thread between the messages `queued_before` and `queued_after`. -/
def startWorker (env : Env) (hwnd : HANDLE) (s : UiState) : UiState :=
  let s := s.log [Call.thread_detach hwnd]
  let worker_log := checkAndLaunch s.g env.worker hwnd
  { s with
    worker_log := s.worker_log ++ worker_log
    heap := s.heap ++ allocations worker_log
    queue := s.queue ++ env.queued_before ++ postedMessages worker_log ++ env.queued_after }

/-- The body of `case WM_CREATE:` in `WindowProc`. -/
def WindowProc_WM_CREATE (env : Env) (hwnd : HANDLE) (s : UiState) : UiState :=
  let title : CreateWindowArgs :=
    { dwExStyle := 0, lpClassName := L "STATIC",
      lpWindowName := some (L "Noki启动器 (管理员模式)"),
      dwStyle := WS_VISIBLE ||| WS_CHILD ||| SS_CENTER,
      X := 10, Y := 15, nWidth := 380, nHeight := 25,
      hWndParent := hwnd, hMenu := NULL, hInstance := env.GetWindowLongPtr_ret }
  let s := s.log [Call.GetWindowLongPtr hwnd GWLP_HINSTANCE, Call.CreateWindowW title]
  let hTitle := env.hTitle
  let s := s.log [Call.CreateFontW 20 FW_BOLD (L "微软雅黑")]
  let hTitleFont := env.hTitleFont
  let s := s.log [Call.SendMessage hTitle WM_SETFONT hTitleFont TRUE]
  let status : CreateWindowArgs :=
    { dwExStyle := 0, lpClassName := L "STATIC",
      lpWindowName := some (L "正在初始化..."),
      dwStyle := WS_VISIBLE ||| WS_CHILD ||| SS_CENTER,
      X := 10, Y := 50, nWidth := 380, nHeight := 25,
      hWndParent := hwnd, hMenu := NULL, hInstance := env.GetWindowLongPtr_ret }
  let s := s.log [Call.GetWindowLongPtr hwnd GWLP_HINSTANCE, Call.CreateWindowW status]
  let s := { s with g := { s.g with g_hStaticText := env.hStaticText } }
  let s := s.log [Call.CreateFontW 14 FW_NORMAL (L "微软雅黑")]
  let hStatusFont := env.hStatusFont
  let s := s.log [Call.SendMessage s.g.g_hStaticText WM_SETFONT hStatusFont TRUE]
  let bar : CreateWindowArgs :=
    { dwExStyle := 0, lpClassName := L "msctls_progress32",
      lpWindowName := none,
      dwStyle := WS_VISIBLE ||| WS_CHILD ||| PBS_SMOOTH,
      X := 50, Y := 85, nWidth := 300, nHeight := 20,
      hWndParent := hwnd, hMenu := NULL, hInstance := env.GetWindowLongPtr_ret }
  let s := s.log [Call.GetWindowLongPtr hwnd GWLP_HINSTANCE, Call.CreateWindowW bar]
  let s := { s with g := { s.g with g_hProgressBar := env.hProgressBar } }
  let s := s.log [Call.SendMessage s.g.g_hProgressBar PBM_SETRANGE 0 (MAKELPARAM 0 100),
                  Call.SendMessage s.g.g_hProgressBar PBM_SETPOS 0 0]
  startWorker env hwnd s

/-- `LRESULT CALLBACK WindowProc(HWND hwnd, UINT uMsg, WPARAM wParam, LPARAM
lParam)`: the new state and the returned value, or `none` for undefined
behaviour.  The value `DefWindowProc` returns is not used by any caller and is
taken as `0`. -/
def WindowProc (env : Env) (hwnd : HANDLE) (uMsg : Nat) (wParam lParam : Int)
    (s : UiState) : Option (UiState × Int) :=
  if uMsg = WM_CREATE then
    some (WindowProc_WM_CREATE env hwnd s, 0)
  else if uMsg = WM_DESTROY then
    some (WindowProc_WM_DESTROY s, 0)
  else if uMsg = WM_CLOSE then
    some (DestroyWindow hwnd s, 0)
  else if uMsg = WM_USER + 1 then
    (HandleErrorMessage hwnd lParam s).map fun s => (s, 0)
  else
    some (s.log [Call.DefWindowProc hwnd uMsg wParam lParam], 0)

/-- `BOOL RegisterWindowClass(HINSTANCE hInstance)`: the result and the calls
made. -/
def RegisterWindowClass (env : Env) (hInstance : HANDLE) : BOOL × List Call :=
  let wc : WNDCLASSW :=
    { style := CS_HREDRAW ||| CS_VREDRAW, cbClsExtra := 0, cbWndExtra := 0,
      hInstance := hInstance, hIcon := env.hIcon, hCursor := env.hCursor,
      hbrBackground := COLOR_WINDOW + 1, lpszMenuName := none,
      lpszClassName := L "NokiLauncherWindow" }
  ((env.RegisterClassW_ret : Int),
    [Call.LoadIcon hInstance, Call.LoadCursor NULL, Call.RegisterClassW wc])

/-- `HWND CreateMainWindow(HINSTANCE hInstance)`.  When `CreateWindowExW`
succeeds the window exists from then on and the system sends it `WM_CREATE`
before the call returns, so the `WM_CREATE` case of `WindowProc` runs inside
it; when it fails no window procedure runs. -/
def CreateMainWindow (env : Env) (hInstance : HANDLE) (s : UiState) : HANDLE × UiState :=
  let args : CreateWindowArgs :=
    { dwExStyle := 0, lpClassName := L "NokiLauncherWindow",
      lpWindowName := some (L "Noki启动器 (管理员模式)"),
      dwStyle := WS_OVERLAPPED ||| WS_CAPTION ||| WS_SYSMENU ||| WS_MINIMIZEBOX,
      X := CW_USEDEFAULT, Y := CW_USEDEFAULT, nWidth := 420, nHeight := 180,
      hWndParent := NULL, hMenu := NULL, hInstance := hInstance }
  let s := s.log [Call.CreateWindowExW args]
  let hwnd := env.CreateWindowExW_ret
  if hwnd ≠ NULL then
    (hwnd, WindowProc_WM_CREATE env hwnd { s with window := some hwnd })
  else
    (hwnd, s)

/-- How a run of the message loop, or of `WinMain`, ends. -/
inductive Exit where
  /-- The function returned this value. -/
  | returned (status : Int)
  /-- The loop waits in `GetMessage` and no message will arrive. -/
  | blocked
  /-- The program ran into undefined behaviour. -/
  | undefined
  /-- The step budget of the model ran out. -/
  | out_of_fuel
  deriving DecidableEq, Repr

/-- The loop `while (GetMessage(&msg, NULL, 0, 0)) { TranslateMessage(&msg);
DispatchMessage(&msg); }`.  `GetMessage` takes the oldest queued message; with
an empty queue it returns `0` if a `WM_QUIT` is pending and waits otherwise.
`DispatchMessage` calls `WindowProc` when the message is for the live window.
The result is how the loop ends and the state it ends in; `fuel` bounds the
number of iterations. -/
def messageLoop (env : Env) : Nat → UiState → Exit × UiState
  | 0, s => (Exit.out_of_fuel, s)
  | fuel + 1, s =>
    let s := s.log [Call.GetMessage]
    match s.queue with
    | [] =>
      match s.quit with
      | some _ => (Exit.returned 0, s)
      | none => (Exit.blocked, s)
    | msg :: rest =>
      let s := { s with queue := rest }
      let s := s.log [Call.TranslateMessage msg, Call.DispatchMessage msg]
      if s.window = some msg.hwnd then
        match WindowProc env msg.hwnd msg.message msg.wParam msg.lParam s with
        | none => (Exit.undefined, s)
        | some (s, _) => messageLoop env fuel s
      else
        messageLoop env fuel s

/-- `int WINAPI WinMain(HINSTANCE hInstance, HINSTANCE hPrevInstance, LPSTR
lpCmdLine, int nCmdShow)`: how the run ends and the final state. -/
def WinMain (env : Env) (fuel : Nat) : Exit × UiState :=
  let s := UiState.init
  let (isAdmin, calls) := IsRunningAsAdmin env
  let s := s.log calls
  if !isAdmin then
    let (restarted, calls) := RestartAsAdmin env
    let s := s.log calls
    if restarted then
      (Exit.returned 0, s)
    else
      let s := s.log (ShowErrorMessage
        (L "需要管理员权限才能运行此程序。\n请右键点击程序，选择'以管理员身份运行'。"))
      (Exit.returned 1, s)
  else
    let s := s.log [Call.InitCommonControlsEx ICC_PROGRESS_CLASS]
    let (registered, calls) := RegisterWindowClass env env.hInstance
    let s := s.log calls
    if registered = 0 then
      let s := s.log (ShowErrorMessage (L "无法注册窗口类"))
      (Exit.returned 1, s)
    else
      let (hwnd, s) := CreateMainWindow env env.hInstance s
      let s := { s with g_hWnd := hwnd }
      if s.g_hWnd = NULL then
        let s := s.log (ShowErrorMessage (L "无法创建窗口"))
        (Exit.returned 1, s)
      else
        let x := Int.tdiv (env.cxScreen - (env.rc_right - env.rc_left)) 2
        let y := Int.tdiv (env.cyScreen - (env.rc_bottom - env.rc_top)) 2
        let s := s.log [Call.GetWindowRect s.g_hWnd, Call.GetSystemMetrics SM_CXSCREEN,
          Call.GetSystemMetrics SM_CYSCREEN,
          Call.SetWindowPos s.g_hWnd NULL x y 0 0 (SWP_NOSIZE ||| SWP_NOZORDER),
          Call.ShowWindow s.g_hWnd env.nCmdShow, Call.UpdateWindow s.g_hWnd]
        messageLoop env fuel s

/-- The texts of the modal dialogs (`MessageBoxW`) in a log, in order. -/
def dialogs (log : List Call) : List WString :=
  log.filterMap fun c =>
    match c with
    | Call.MessageBoxW _ text _ _ => some text
    | _ => none


/-- A call that operates on a window or control directly, as opposed to
queueing a message for it with `PostMessage`. -/
def Call.isDirectUi : Call → Bool
  | Call.SetWindowTextW _ _ => true
  | Call.SendMessage _ _ _ _ => true
  | Call.MessageBoxW _ _ _ _ => true
  | Call.CreateWindowExW _ => true
  | Call.CreateWindowW _ => true
  | Call.GetWindowLongPtr _ _ => true
  | Call.DestroyWindow _ => true
  | Call.DefWindowProc _ _ _ _ => true
  | Call.GetWindowRect _ => true
  | Call.SetWindowPos _ _ _ _ _ _ _ => true
  | Call.ShowWindow _ _ => true
  | Call.UpdateWindow _ => true
  | _ => false

/-! ## Predicates on environments, queues and states -/

/-- A queued message that leaves window `h` open and starts nothing: it is for
another window, or it is none of `WM_CREATE`, `WM_CLOSE`, `WM_USER + 1`. -/
def quiet (h : HANDLE) (m : MSG) : Prop :=
  m.hwnd = h → m.message ≠ WM_CREATE ∧ m.message ≠ WM_CLOSE ∧ m.message ≠ WM_USER + 1

/-- The queue holds a `WM_CLOSE` for window `h`, and no `WM_CREATE` or
`WM_USER + 1` for `h` precedes the first one. -/
def closes (h : HANDLE) : List MSG → Prop
  | [] => False
  | m :: q =>
    if m.hwnd = h then
      if m.message = WM_CLOSE then True
      else if m.message = WM_CREATE ∨ m.message = WM_USER + 1 then False
      else closes h q
    else closes h q

/-- Every entry into `UpdateProgress` in the log comes with the two calls on
the controls: `SetWindowTextW` on the status label with the same message, and
`SendMessage(PBM_SETPOS)` on the progress bar with the same percentage, each
when the handle is non-null. -/
def updatesDirectly (g : Globals) (log : List Call) : Prop :=
  ∀ p m, Call.enter_UpdateProgress p m ∈ log →
    (g.g_hStaticText ≠ NULL → Call.SetWindowTextW g.g_hStaticText m ∈ log)
    ∧ (g.g_hProgressBar ≠ NULL → Call.SendMessage g.g_hProgressBar PBM_SETPOS p 0 ∈ log)

/-- State `t` comes after state `s` with a longer UI log and with the same
dialogs shown, the same heap, the same worker log and the same globals. -/
def carriesOn (s t : UiState) : Prop :=
  s.ui_log <+: t.ui_log ∧ dialogs t.ui_log = dialogs s.ui_log ∧ t.heap = s.heap
    ∧ t.worker_log = s.worker_log ∧ t.g = s.g

/-- The worker started the target. -/
def launched (env : WorkerEnv) : Prop :=
  env.exists_outcome = ExistsOutcome.returns true ∧ env.CreateProcessW_ret ≠ 0

instance (env : WorkerEnv) : Decidable (launched env) :=
  inferInstanceAs (Decidable (env.exists_outcome = ExistsOutcome.returns true
    ∧ env.CreateProcessW_ret ≠ 0))

/-- The messages that the system and the user queue for the main window are
never `WM_CREATE` (the system sends it once, inside `CreateWindowExW`) and never
the program's private `WM_USER + 1` (only the worker posts it). -/
def Env.wellFormed (env : Env) : Prop :=
  ∀ m ∈ env.queued_before ++ env.queued_after,
    m.hwnd = env.CreateWindowExW_ret → m.message ≠ WM_CREATE ∧ m.message ≠ WM_USER + 1

instance (env : Env) : Decidable env.wellFormed :=
  inferInstanceAs (Decidable (∀ m ∈ env.queued_before ++ env.queued_after,
    m.hwnd = env.CreateWindowExW_ret → m.message ≠ WM_CREATE ∧ m.message ≠ WM_USER + 1))

/-- The run gets as far as the message loop: the process is elevated, the
window class is registered and the main window is created. -/
def reachesLoop (env : Env) : Prop :=
  (IsRunningAsAdmin env).1 = true ∧ env.RegisterClassW_ret ≠ 0
    ∧ env.CreateWindowExW_ret ≠ NULL

instance (env : Env) : Decidable (reachesLoop env) :=
  inferInstanceAs (Decidable ((IsRunningAsAdmin env).1 = true ∧ env.RegisterClassW_ret ≠ 0
    ∧ env.CreateWindowExW_ret ≠ NULL))

/-- The run fails before the message loop: (a) not elevated and the elevation
request returns `false`, (b) elevated and the class registration fails, or
(c) elevated, registered, and `CreateWindowExW` returns `NULL`. -/
def failsBeforeLoop (env : Env) : Prop :=
  ((IsRunningAsAdmin env).1 = false ∧ (RestartAsAdmin env).1 = false)
    ∨ ((IsRunningAsAdmin env).1 = true ∧ env.RegisterClassW_ret = 0)
    ∨ ((IsRunningAsAdmin env).1 = true ∧ env.RegisterClassW_ret ≠ 0
        ∧ env.CreateWindowExW_ret = NULL)

instance (env : Env) : Decidable (failsBeforeLoop env) :=
  inferInstanceAs (Decidable (((IsRunningAsAdmin env).1 = false ∧ (RestartAsAdmin env).1 = false)
    ∨ ((IsRunningAsAdmin env).1 = true ∧ env.RegisterClassW_ret = 0)
    ∨ ((IsRunningAsAdmin env).1 = true ∧ env.RegisterClassW_ret ≠ 0
        ∧ env.CreateWindowExW_ret = NULL)))

/-- The worker of this run: `checkAndLaunch` with the control handles that
`WM_CREATE` stored and the main window as its argument. -/
def workerRun (env : Env) : List Call :=
  checkAndLaunch ⟨env.hStaticText, env.hProgressBar⟩ env.worker env.CreateWindowExW_ret

/-- The state in which `WinMain` enters the message loop, when it gets there. -/
def loopEntry (env : Env) : UiState :=
  let s := UiState.init.log (IsRunningAsAdmin env).2
  let s := s.log [Call.InitCommonControlsEx ICC_PROGRESS_CLASS]
  let s := s.log (RegisterWindowClass env env.hInstance).2
  let s := (CreateMainWindow env env.hInstance s).2
  let s := { s with g_hWnd := env.CreateWindowExW_ret }
  s.log [Call.GetWindowRect s.g_hWnd, Call.GetSystemMetrics SM_CXSCREEN,
    Call.GetSystemMetrics SM_CYSCREEN,
    Call.SetWindowPos s.g_hWnd NULL
      (Int.tdiv (env.cxScreen - (env.rc_right - env.rc_left)) 2)
      (Int.tdiv (env.cyScreen - (env.rc_bottom - env.rc_top)) 2) 0 0
      (SWP_NOSIZE ||| SWP_NOZORDER),
    Call.ShowWindow s.g_hWnd env.nCmdShow, Call.UpdateWindow s.g_hWnd]

/-! ## Concrete inputs -/

/-- A lexical instance of the two path operations for paths with backslash
separators: the parent is what precedes the last separator, and `/` joins with
one separator.  It serves to evaluate the embedding on concrete inputs. -/
def samplePathOps : PathOps :=
  { parent_path := fun p => ((p.reverse.dropWhile fun c => decide (c ≠ 92)).drop 1).reverse
    append := fun a b => a ++ [92] ++ b }

/-- A worker environment for the launcher installed as `C:\Noki\launcher.exe`,
with the given outcome of the existence check and of `CreateProcessW`. -/
def sampleWorkerEnv (outcome : ExistsOutcome) (created : BOOL) : WorkerEnv :=
  { fs := samplePathOps, current_path := L "C:\\Noki\\launcher.exe",
    exists_outcome := outcome, sizeof_si := 104, CreateProcessW_ret := created,
    hProcess := 300, hThread := 304, last_error := 5, new_ret := 4096 }

/-- Control handles as `WM_CREATE` leaves them when every control is created. -/
def sampleGlobals : Globals := ⟨21, 23⟩

/-- An environment for `WinMain`: the administrator check and the elevation
request answer as given, window setup succeeds with main window `7`, and the
worker runs in `sampleWorkerEnv outcome created`; one paint message (`WM_PAINT`,
`0x000F`) is queued ahead of the worker's message. -/
def sampleEnv (isMember : BOOL) (shellOk : BOOL) (outcome : ExistsOutcome)
    (created : BOOL) : Env :=
  { AllocateAndInitializeSid_ret := 1, adminGroup := 11, CheckTokenMembership_ret := 1,
    IsMember := isMember, currentPath := L "C:\\Noki\\launcher.exe", sizeof_sei := 112,
    ShellExecuteExW_ret := shellOk, hInstance := 1, nCmdShow := 1, hIcon := 2, hCursor := 3,
    RegisterClassW_ret := 49000, CreateWindowExW_ret := 7, GetWindowLongPtr_ret := 1,
    hTitle := 19, hTitleFont := 20, hStaticText := 21, hStatusFont := 22, hProgressBar := 23,
    rc_left := 100, rc_top := 100, rc_right := 520, rc_bottom := 280,
    cxScreen := 1920, cyScreen := 1080,
    worker := sampleWorkerEnv outcome created,
    queued_before := [⟨7, 0x000F, 0, 0⟩], queued_after := [] }

/-! ## Lemmas on call logs -/

theorem percentages_append (a b : List Call) :
    percentages (a ++ b) = percentages a ++ percentages b := by
  simp [percentages, List.filterMap_append]

theorem createProcessCalls_append (a b : List Call) :
    createProcessCalls (a ++ b) = createProcessCalls a ++ createProcessCalls b := by
  simp [createProcessCalls, List.filterMap_append]

theorem postedMessages_append (a b : List Call) :
    postedMessages (a ++ b) = postedMessages a ++ postedMessages b := by
  simp [postedMessages, List.filterMap_append]

theorem allocations_append (a b : List Call) :
    allocations (a ++ b) = allocations a ++ allocations b := by
  simp [allocations, List.filterMap_append]

theorem closedHandles_append (a b : List Call) :
    closedHandles (a ++ b) = closedHandles a ++ closedHandles b := by
  simp [closedHandles, List.filterMap_append]

theorem dialogs_append (a b : List Call) :
    dialogs (a ++ b) = dialogs a ++ dialogs b := by
  simp [dialogs, List.filterMap_append]

theorem percentages_UpdateProgress (g : Globals) (p : Int) (m : WString) :
    percentages (UpdateProgress g p m) = [p] := by
  unfold UpdateProgress
  split_ifs <;> simp [percentages]

theorem createProcessCalls_UpdateProgress (g : Globals) (p : Int) (m : WString) :
    createProcessCalls (UpdateProgress g p m) = [] := by
  unfold UpdateProgress
  split_ifs <;> simp [createProcessCalls]

theorem postedMessages_UpdateProgress (g : Globals) (p : Int) (m : WString) :
    postedMessages (UpdateProgress g p m) = [] := by
  unfold UpdateProgress
  split_ifs <;> simp [postedMessages]

theorem allocations_UpdateProgress (g : Globals) (p : Int) (m : WString) :
    allocations (UpdateProgress g p m) = [] := by
  unfold UpdateProgress
  split_ifs <;> simp [allocations]

theorem closedHandles_UpdateProgress (g : Globals) (p : Int) (m : WString) :
    closedHandles (UpdateProgress g p m) = [] := by
  unfold UpdateProgress
  split_ifs <;> simp [closedHandles]

/-- The log of a run in which the target exists and is started. -/
theorem checkAndLaunch_launched (g : Globals) (env : WorkerEnv) (hwnd : HANDLE)
    (he : env.exists_outcome = ExistsOutcome.returns true)
    (hc : env.CreateProcessW_ret ≠ 0) :
    checkAndLaunch g env hwnd =
      workerPrologue g env
        ++ (UpdateProgress g 60 (L "正在启动目标程序...")
        ++ [Call.sleep_for 500]
        ++ [Call.CreateProcessW (createProcessArgs env)]
        ++ ([Call.CloseHandle env.hProcess, Call.CloseHandle env.hThread]
        ++ UpdateProgress g 100 (L "启动成功！")
        ++ [Call.sleep_for 1000]
        ++ [Call.PostMessage hwnd WM_CLOSE 0 0])) := by
  unfold checkAndLaunch workerPrologue
  rw [he]
  simp only [if_pos hc]

/-- The log of a run in which the target exists and cannot be started. -/
theorem checkAndLaunch_launch_failed (g : Globals) (env : WorkerEnv) (hwnd : HANDLE)
    (he : env.exists_outcome = ExistsOutcome.returns true)
    (hc : env.CreateProcessW_ret = 0) :
    checkAndLaunch g env hwnd =
      workerPrologue g env
        ++ (UpdateProgress g 60 (L "正在启动目标程序...")
        ++ [Call.sleep_for 500]
        ++ [Call.CreateProcessW (createProcessArgs env)]
        ++ [Call.GetLastError,
            Call.operator_new env.new_ret
              (L "无法启动程序: " ++ exe_path env ++ L "\n错误代码: "
                ++ to_wstring env.last_error),
            Call.PostMessage hwnd (WM_USER + 1) 0 env.new_ret]) := by
  unfold checkAndLaunch workerPrologue
  rw [he]
  have hn : ¬ (env.CreateProcessW_ret ≠ 0) := by simpa using hc
  simp only [if_neg hn]

/-- The log of a run in which the target does not exist. -/
theorem checkAndLaunch_missing (g : Globals) (env : WorkerEnv) (hwnd : HANDLE)
    (he : env.exists_outcome = ExistsOutcome.returns false) :
    checkAndLaunch g env hwnd =
      workerPrologue g env
        ++ [Call.operator_new env.new_ret (L "目标程序不存在:\n" ++ exe_path env),
            Call.PostMessage hwnd (WM_USER + 1) 0 env.new_ret] := by
  unfold checkAndLaunch workerPrologue
  rw [he]

/-- The log of a run in which the existence check throws. -/
theorem checkAndLaunch_threw (g : Globals) (env : WorkerEnv) (hwnd : HANDLE)
    (what : List Int) (he : env.exists_outcome = ExistsOutcome.throws what) :
    checkAndLaunch g env hwnd =
      workerPrologue g env
        ++ [Call.operator_new env.new_ret (L "发生异常: " ++ what.map widen),
            Call.PostMessage hwnd (WM_USER + 1) 0 env.new_ret] := by
  unfold checkAndLaunch workerPrologue
  rw [he]

theorem percentages_workerPrologue (g : Globals) (env : WorkerEnv) :
    percentages (workerPrologue g env) = [10, 30] := by
  simp only [workerPrologue, percentages_append, percentages_UpdateProgress]
  simp [percentages]

theorem createProcessCalls_workerPrologue (g : Globals) (env : WorkerEnv) :
    createProcessCalls (workerPrologue g env) = [] := by
  simp only [workerPrologue, createProcessCalls_append, createProcessCalls_UpdateProgress]
  simp [createProcessCalls]

theorem postedMessages_workerPrologue (g : Globals) (env : WorkerEnv) :
    postedMessages (workerPrologue g env) = [] := by
  simp only [workerPrologue, postedMessages_append, postedMessages_UpdateProgress]
  simp [postedMessages]

theorem allocations_workerPrologue (g : Globals) (env : WorkerEnv) :
    allocations (workerPrologue g env) = [] := by
  simp only [workerPrologue, allocations_append, allocations_UpdateProgress]
  simp [allocations]

theorem closedHandles_workerPrologue (g : Globals) (env : WorkerEnv) :
    closedHandles (workerPrologue g env) = [] := by
  simp only [workerPrologue, closedHandles_append, closedHandles_UpdateProgress]
  simp [closedHandles]

/-- The four ways a run of the worker can go. -/
theorem exists_outcome_cases (env : WorkerEnv) :
    (env.exists_outcome = ExistsOutcome.returns true ∧ env.CreateProcessW_ret ≠ 0)
    ∨ (env.exists_outcome = ExistsOutcome.returns true ∧ env.CreateProcessW_ret = 0)
    ∨ env.exists_outcome = ExistsOutcome.returns false
    ∨ ∃ what, env.exists_outcome = ExistsOutcome.throws what := by
  rcases h : env.exists_outcome with b | w
  · cases b
    · simp
    · by_cases hc : env.CreateProcessW_ret = 0 <;> simp [hc]
  · simp

/-! ## Lemmas on the message loop -/

@[simp] theorem log_g_hWnd (s : UiState) (cs : List Call) : (s.log cs).g_hWnd = s.g_hWnd := rfl
@[simp] theorem log_g (s : UiState) (cs : List Call) : (s.log cs).g = s.g := rfl
@[simp] theorem log_window (s : UiState) (cs : List Call) : (s.log cs).window = s.window := rfl
@[simp] theorem log_queue (s : UiState) (cs : List Call) : (s.log cs).queue = s.queue := rfl
@[simp] theorem log_quit (s : UiState) (cs : List Call) : (s.log cs).quit = s.quit := rfl
@[simp] theorem log_heap (s : UiState) (cs : List Call) : (s.log cs).heap = s.heap := rfl
@[simp] theorem log_worker_log (s : UiState) (cs : List Call) :
    (s.log cs).worker_log = s.worker_log := rfl
@[simp] theorem log_ui_log (s : UiState) (cs : List Call) :
    (s.log cs).ui_log = s.ui_log ++ cs := rfl

theorem carriesOn_refl (s : UiState) : carriesOn s s :=
  ⟨List.prefix_refl _, rfl, rfl, rfl, rfl⟩

theorem carriesOn_trans {s t u : UiState} (h1 : carriesOn s t) (h2 : carriesOn t u) :
    carriesOn s u :=
  ⟨List.IsPrefix.trans h1.1 h2.1, h2.2.1.trans h1.2.1, h2.2.2.1.trans h1.2.2.1,
    h2.2.2.2.1.trans h1.2.2.2.1, h2.2.2.2.2.trans h1.2.2.2.2⟩

/-- Taking a message off the queue and handing it to `DispatchMessage`. -/
theorem carriesOn_dequeue (s : UiState) (m : MSG) (rest : List MSG) :
    carriesOn s (({ s.log [Call.GetMessage] with queue := rest }).log
      [Call.TranslateMessage m, Call.DispatchMessage m]) :=
  ⟨by simp, by simp [dialogs_append, dialogs], rfl, rfl, rfl⟩

/-- One iteration of the loop on a non-empty queue. -/
theorem messageLoop_cons (env : Env) (fuel : Nat) (s : UiState) (m : MSG) (rest : List MSG)
    (hq : s.queue = m :: rest) :
    messageLoop env (fuel + 1) s =
      if s.window = some m.hwnd then
        match WindowProc env m.hwnd m.message m.wParam m.lParam
            (({ s.log [Call.GetMessage] with queue := rest }).log
              [Call.TranslateMessage m, Call.DispatchMessage m]) with
        | none => (Exit.undefined, ({ s.log [Call.GetMessage] with queue := rest }).log
              [Call.TranslateMessage m, Call.DispatchMessage m])
        | some (s, _) => messageLoop env fuel s
      else
        messageLoop env fuel (({ s.log [Call.GetMessage] with queue := rest }).log
              [Call.TranslateMessage m, Call.DispatchMessage m]) := by
  rw [messageLoop]
  simp only [log_queue, hq]
  rfl

/-- The last iteration: the queue is empty and a `WM_QUIT` is pending. -/
theorem messageLoop_nil (env : Env) (fuel : Nat) (s : UiState) (c : Int)
    (hq : s.queue = []) (hquit : s.quit = some c) :
    messageLoop env (fuel + 1) s = (Exit.returned 0, s.log [Call.GetMessage]) := by
  rw [messageLoop]
  simp only [log_queue, hq, log_quit, hquit]

/-- With no live window and a pending `WM_QUIT`, the loop drains the queue and
returns. -/
theorem messageLoop_dead (env : Env) :
    ∀ (q : List MSG) (s : UiState) (fuel : Nat),
      s.queue = q → s.window = none → s.quit.isSome = true → q.length + 1 ≤ fuel →
      ∃ t, messageLoop env fuel s = (Exit.returned 0, t) ∧ carriesOn s t
        ∧ t.window = none := by
  intro q
  induction q with
  | nil =>
    intro s fuel hq hw hquit hfuel
    obtain ⟨f, rfl⟩ : ∃ f, fuel = f + 1 := ⟨fuel - 1, by omega⟩
    obtain ⟨c, hc⟩ := Option.isSome_iff_exists.mp hquit
    refine ⟨s.log [Call.GetMessage], messageLoop_nil env f s c hq hc, ?_, hw⟩
    exact ⟨by simp, by simp [dialogs_append, dialogs], rfl, rfl, rfl⟩
  | cons m rest ih =>
    intro s fuel hq hw hquit hfuel
    obtain ⟨f, rfl⟩ : ∃ f, fuel = f + 1 := ⟨fuel - 1, by omega⟩
    rw [messageLoop_cons env f s m rest hq]
    have hne : ¬ (s.window = some m.hwnd) := by simp [hw]
    rw [if_neg hne]
    obtain ⟨t, ht, hsame, htw⟩ := ih
      (({ s.log [Call.GetMessage] with queue := rest }).log
        [Call.TranslateMessage m, Call.DispatchMessage m]) f rfl hw hquit
      (by simp only [List.length_cons] at hfuel; omega)
    exact ⟨t, ht, carriesOn_trans (carriesOn_dequeue s m rest) hsame, htw⟩

/-- The window procedure on a message that is neither `WM_CREATE`, `WM_CLOSE`
nor `WM_USER + 1`. -/
theorem WindowProc_quiet (env : Env) (hwnd : HANDLE) (uMsg : Nat) (w l : Int) (s : UiState)
    (h1 : uMsg ≠ WM_CREATE) (h2 : uMsg ≠ WM_CLOSE) (h3 : uMsg ≠ WM_USER + 1) :
    ∃ t, WindowProc env hwnd uMsg w l s = some (t, 0) ∧ carriesOn s t
      ∧ t.queue = s.queue ∧ t.window = s.window := by
  unfold WindowProc
  rw [if_neg h1]
  by_cases hd : uMsg = WM_DESTROY
  · rw [if_pos hd]
    refine ⟨_, rfl, ?_, rfl, rfl⟩
    exact ⟨by simp [WindowProc_WM_DESTROY, PostQuitMessage],
      by simp [WindowProc_WM_DESTROY, PostQuitMessage, dialogs_append, dialogs],
      rfl, rfl, rfl⟩
  · rw [if_neg hd, if_neg h2, if_neg h3]
    refine ⟨_, rfl, ?_, rfl, rfl⟩
    exact ⟨by simp, by simp [dialogs_append, dialogs], rfl, rfl, rfl⟩

/-- The loop works through a run of quiet messages. -/
theorem messageLoop_quiet (env : Env) (h : HANDLE) :
    ∀ (pre rest : List MSG) (s : UiState) (k : Nat),
      s.queue = pre ++ rest → s.window = some h → (∀ m ∈ pre, quiet h m) →
      ∃ t, messageLoop env (pre.length + k) s = messageLoop env k t ∧ carriesOn s t
        ∧ t.queue = rest ∧ t.window = some h := by
  intro pre
  induction pre with
  | nil =>
    intro rest s k hq hw _
    exact ⟨s, by simp, carriesOn_refl s, by simpa using hq, hw⟩
  | cons m pre ih =>
    intro rest s k hq hw hquiet
    have hstep : (m :: pre).length + k = (pre.length + k) + 1 := by
      simp only [List.length_cons]; omega
    rw [hstep, messageLoop_cons env (pre.length + k) s m (pre ++ rest) (by simpa using hq)]
    have hm : quiet h m := hquiet m (List.mem_cons_self _ _)
    have hpre : ∀ m' ∈ pre, quiet h m' := fun m' hm' => hquiet m' (List.mem_cons_of_mem _ hm')
    by_cases hh : m.hwnd = h
    · obtain ⟨h1, h2, h3⟩ := hm hh
      rw [if_pos (by rw [hw, hh])]
      obtain ⟨t, ht, hsame, htq, htw⟩ := WindowProc_quiet env m.hwnd m.message m.wParam m.lParam
        (({ s.log [Call.GetMessage] with queue := pre ++ rest }).log
          [Call.TranslateMessage m, Call.DispatchMessage m]) h1 h2 h3
      rw [ht]
      obtain ⟨u, hu, hsame2, huq, huw⟩ := ih rest t k htq (by rw [htw]; exact hw) hpre
      exact ⟨u, hu, carriesOn_trans (carriesOn_trans (carriesOn_dequeue s m _) hsame) hsame2,
        huq, huw⟩
    · rw [if_neg (by rw [hw]; intro hc; exact hh (Option.some.inj hc).symm)]
      obtain ⟨u, hu, hsame2, huq, huw⟩ := ih rest
        (({ s.log [Call.GetMessage] with queue := pre ++ rest }).log
          [Call.TranslateMessage m, Call.DispatchMessage m]) k rfl hw hpre
      exact ⟨u, hu, carriesOn_trans (carriesOn_dequeue s m _) hsame2, huq, huw⟩

/-- The call `DestroyWindow` on the live window. -/
theorem DestroyWindow_live (hwnd : HANDLE) (s : UiState) (hw : s.window = some hwnd) :
    carriesOn s (DestroyWindow hwnd s) ∧ (DestroyWindow hwnd s).window = none
      ∧ (DestroyWindow hwnd s).quit = some 0
      ∧ (DestroyWindow hwnd s).queue = s.queue.filter (fun m => decide (m.hwnd ≠ hwnd)) := by
  refine ⟨⟨?_, ?_, ?_, ?_, ?_⟩, ?_, ?_, ?_⟩ <;>
    simp [DestroyWindow, hw, WindowProc_WM_DESTROY, PostQuitMessage, dialogs_append, dialogs]

/-- A queue that `closes` window `h` makes the loop return: the first
`WM_CLOSE` destroys the window, `WM_DESTROY` posts the quit message, and the
rest of the queue drains. -/
theorem messageLoop_closes (env : Env) (h : HANDLE) :
    ∀ (q : List MSG) (s : UiState) (fuel : Nat),
      s.queue = q → s.window = some h → closes h q → q.length + 1 ≤ fuel →
      ∃ t, messageLoop env fuel s = (Exit.returned 0, t) ∧ carriesOn s t
        ∧ t.window = none := by
  intro q
  induction q with
  | nil =>
    intro s fuel _ _ hcl _
    exact absurd hcl (by simp [closes])
  | cons m rest ih =>
    intro s fuel hq hw hcl hfuel
    obtain ⟨f, rfl⟩ : ∃ f, fuel = f + 1 := ⟨fuel - 1, by omega⟩
    have hf : rest.length + 1 ≤ f := by
      simp only [List.length_cons] at hfuel; omega
    rw [messageLoop_cons env f s m rest hq]
    unfold closes at hcl
    by_cases hh : m.hwnd = h
    · rw [if_pos hh] at hcl
      rw [if_pos (by rw [hw, hh])]
      by_cases hc : m.message = WM_CLOSE
      · have hwp : WindowProc env m.hwnd m.message m.wParam m.lParam
            (({ s.log [Call.GetMessage] with queue := rest }).log
              [Call.TranslateMessage m, Call.DispatchMessage m])
            = some (DestroyWindow m.hwnd (({ s.log [Call.GetMessage] with queue := rest }).log
              [Call.TranslateMessage m, Call.DispatchMessage m]), 0) := by
          unfold WindowProc
          rw [hc]
          simp [WM_CLOSE, WM_CREATE, WM_DESTROY]
        rw [hwp]
        obtain ⟨hcar, hwin, hquit, hqueue⟩ := DestroyWindow_live m.hwnd
          (({ s.log [Call.GetMessage] with queue := rest }).log
            [Call.TranslateMessage m, Call.DispatchMessage m]) (by simp [hw, hh])
        obtain ⟨t, ht, hsame, htw⟩ := messageLoop_dead env _ _ f rfl hwin
          (by rw [hquit]; rfl)
          (by
            rw [hqueue]
            have := List.length_filter_le (fun m' : MSG => decide (m'.hwnd ≠ m.hwnd)) rest
            simp only [log_queue] at this ⊢
            omega)
        exact ⟨t, ht, carriesOn_trans (carriesOn_trans (carriesOn_dequeue s m rest) hcar) hsame,
          htw⟩
      · rw [if_neg hc] at hcl
        by_cases hbad : m.message = WM_CREATE ∨ m.message = WM_USER + 1
        · rw [if_pos hbad] at hcl
          exact absurd hcl id
        · rw [if_neg hbad] at hcl
          obtain ⟨t, ht, hsame, htq, htw⟩ := WindowProc_quiet env m.hwnd m.message m.wParam
            m.lParam (({ s.log [Call.GetMessage] with queue := rest }).log
              [Call.TranslateMessage m, Call.DispatchMessage m])
            (fun e => hbad (Or.inl e)) hc (fun e => hbad (Or.inr e))
          rw [ht]
          obtain ⟨u, hu, hsame2, huw⟩ := ih t f htq (by rw [htw]; exact hw) hcl hf
          exact ⟨u, hu,
            carriesOn_trans (carriesOn_trans (carriesOn_dequeue s m rest) hsame) hsame2, huw⟩
    · rw [if_neg hh] at hcl
      rw [if_neg (by rw [hw]; intro hc; exact hh (Option.some.inj hc).symm)]
      obtain ⟨u, hu, hsame2, huw⟩ := ih
        (({ s.log [Call.GetMessage] with queue := rest }).log
          [Call.TranslateMessage m, Call.DispatchMessage m]) f rfl hw hcl hf
      exact ⟨u, hu, carriesOn_trans (carriesOn_dequeue s m rest) hsame2, huw⟩

/-- A run that gets to the message loop is the loop started in `loopEntry`. -/
theorem WinMain_eq_messageLoop (env : Env) (fuel : Nat) (hr : reachesLoop env) :
    WinMain env fuel = messageLoop env fuel (loopEntry env) := by
  obtain ⟨ha, hreg, hwin⟩ := hr
  have hreg2 : ¬ ((RegisterWindowClass env env.hInstance).1 = 0) := by
    simpa [RegisterWindowClass] using hreg
  have hcw : (CreateMainWindow env env.hInstance
      (((UiState.init.log (IsRunningAsAdmin env).2).log
        [Call.InitCommonControlsEx ICC_PROGRESS_CLASS]).log
        (RegisterWindowClass env env.hInstance).2)).1 = env.CreateWindowExW_ret := by
    unfold CreateMainWindow
    simp only []
    split_ifs
    all_goals rfl
  unfold WinMain loopEntry
  simp only [ha, Bool.not_true, Bool.false_eq_true, if_false, hreg2, hcw, hwin]

/-- The state at loop entry. -/
theorem loopEntry_facts (env : Env) (hwin : env.CreateWindowExW_ret ≠ NULL) :
    (loopEntry env).window = some env.CreateWindowExW_ret
    ∧ (loopEntry env).queue
        = env.queued_before ++ postedMessages (workerRun env) ++ env.queued_after
    ∧ (loopEntry env).heap = allocations (workerRun env)
    ∧ (loopEntry env).worker_log = workerRun env
    ∧ dialogs (loopEntry env).ui_log = []
    ∧ percentages (loopEntry env).ui_log = []
    ∧ (loopEntry env).g = ⟨env.hStaticText, env.hProgressBar⟩ := by
  unfold loopEntry CreateMainWindow
  simp only [if_pos hwin]
  refine ⟨rfl, ?_, ?_, ?_, ?_, ?_, rfl⟩
  · simp [WindowProc_WM_CREATE, startWorker, workerRun, UiState.init]
  · simp [WindowProc_WM_CREATE, startWorker, workerRun, UiState.init]
  · simp [WindowProc_WM_CREATE, startWorker, workerRun, UiState.init]
  · simp only [WindowProc_WM_CREATE, startWorker, log_ui_log, UiState.init, dialogs_append,
      IsRunningAsAdmin, RegisterWindowClass]
    split_ifs <;> simp [dialogs]
  · simp only [WindowProc_WM_CREATE, startWorker, log_ui_log, UiState.init, percentages_append,
      IsRunningAsAdmin, RegisterWindowClass]
    split_ifs <;> simp [percentages]

/-- A `WM_CLOSE` for `h` behind messages that are neither `WM_CREATE` nor
`WM_USER + 1` for `h`. -/
theorem closes_append_close (h : HANDLE) (c : MSG) (post : List MSG)
    (hch : c.hwnd = h) (hcm : c.message = WM_CLOSE) :
    ∀ pre : List MSG,
      (∀ m ∈ pre, m.hwnd = h → m.message ≠ WM_CREATE ∧ m.message ≠ WM_USER + 1) →
      closes h (pre ++ c :: post) := by
  intro pre
  induction pre with
  | nil =>
    intro _
    simp [closes, hch, hcm]
  | cons m pre ih =>
    intro hpre
    have htail := ih (fun m' hm' => hpre m' (List.mem_cons_of_mem _ hm'))
    have hm := hpre m (List.mem_cons_self _ _)
    rw [List.cons_append]
    unfold closes
    by_cases hh : m.hwnd = h
    · rw [if_pos hh]
      by_cases hc : m.message = WM_CLOSE
      · rw [if_pos hc]
        trivial
      · rw [if_neg hc, if_neg (by
          intro hbad
          rcases hbad with e | e
          · exact (hm hh).1 e
          · exact (hm hh).2 e)]
        exact htail
    · rw [if_neg hh]
      exact htail

/-- The worker posts exactly one message: `WM_CLOSE` after a successful launch
(and it allocates nothing), the notification `WM_USER + 1` with the address of
its one string otherwise. -/
theorem worker_posts (g : Globals) (env : WorkerEnv) (hwnd : HANDLE) :
    ((env.exists_outcome = ExistsOutcome.returns true ∧ env.CreateProcessW_ret ≠ 0) →
      postedMessages (checkAndLaunch g env hwnd) = [⟨hwnd, WM_CLOSE, 0, 0⟩]
      ∧ allocations (checkAndLaunch g env hwnd) = [])
    ∧ (¬ (env.exists_outcome = ExistsOutcome.returns true ∧ env.CreateProcessW_ret ≠ 0) →
      postedMessages (checkAndLaunch g env hwnd) = [⟨hwnd, WM_USER + 1, 0, env.new_ret⟩]
      ∧ ∃ text, allocations (checkAndLaunch g env hwnd) = [(env.new_ret, text)]) := by
  constructor
  · rintro ⟨he, hc⟩
    rw [checkAndLaunch_launched g env hwnd he hc]
    simp only [postedMessages_append, postedMessages_workerPrologue,
      postedMessages_UpdateProgress, allocations_append, allocations_workerPrologue,
      allocations_UpdateProgress]
    simp [postedMessages, allocations]
  · intro hno
    rcases exists_outcome_cases env with ⟨he, hc⟩ | ⟨he, hc⟩ | he | ⟨what, he⟩
    · exact absurd ⟨he, hc⟩ hno
    · rw [checkAndLaunch_launch_failed g env hwnd he hc]
      simp only [postedMessages_append, postedMessages_workerPrologue,
        postedMessages_UpdateProgress, allocations_append, allocations_workerPrologue,
        allocations_UpdateProgress]
      simp [postedMessages, allocations]
    · rw [checkAndLaunch_missing g env hwnd he]
      simp only [postedMessages_append, postedMessages_workerPrologue,
        allocations_append, allocations_workerPrologue]
      simp [postedMessages, allocations]
    · rw [checkAndLaunch_threw g env hwnd what he]
      simp only [postedMessages_append, postedMessages_workerPrologue,
        allocations_append, allocations_workerPrologue]
      simp [postedMessages, allocations]

/-- The window procedure on the notification `WM_USER + 1` whose `lParam` is
the address of the one live string: the dialog, the delete, the close request. -/
theorem WindowProc_notification (env : Env) (hwnd : HANDLE) (w p : Int) (text : WString)
    (s : UiState) (hheap : s.heap = [(p, text)]) (hw : s.window = some hwnd) :
    ∃ t, WindowProc env hwnd (WM_USER + 1) w p s = some (t, 0)
      ∧ t.ui_log = s.ui_log ++ [Call.MessageBoxW NULL text (L "启动器错误")
            (MB_ICONERROR ||| MB_OK), Call.operator_delete p,
          Call.PostMessage hwnd WM_CLOSE 0 0]
      ∧ t.heap = []
      ∧ t.queue = s.queue ++ [⟨hwnd, WM_CLOSE, 0, 0⟩]
      ∧ t.window = some hwnd ∧ t.worker_log = s.worker_log ∧ t.g = s.g := by
  have hlook : s.heap.lookup p = some text := by
    rw [hheap]
    simp [List.lookup]
  unfold WindowProc
  rw [if_neg (by decide), if_neg (by decide), if_neg (by decide), if_pos rfl]
  unfold HandleErrorMessage
  rw [hlook]
  refine ⟨_, rfl, ?_, ?_, ?_, ?_, ?_, ?_⟩ <;>
    simp [PostMessage, ShowErrorMessage, hw, hheap]

/-- A queue in which a `WM_CLOSE` for `h` occurs behind harmless messages. -/
theorem closes_of_mem (h : HANDLE) (pre post : List MSG)
    (hpre : ∀ m ∈ pre, m.hwnd = h → m.message ≠ WM_CREATE ∧ m.message ≠ WM_USER + 1)
    (hmem : ∃ m ∈ pre, m.hwnd = h ∧ m.message = WM_CLOSE) :
    closes h (pre ++ post) := by
  obtain ⟨c, hc, hch, hcm⟩ := hmem
  obtain ⟨a, b, rfl⟩ := List.append_of_mem hc
  rw [List.append_assoc, List.cons_append]
  exact closes_append_close h c (b ++ post) hch hcm a
    (fun m hm => hpre m (List.mem_append_left _ hm))

/-- A run that reaches the loop, in which the worker posts an error
notification and no `WM_CLOSE` for the main window is queued ahead of it. -/
theorem WinMain_error_handled (env : Env) (fuel : Nat) (hr : reachesLoop env)
    (hwf : env.wellFormed) (hno : ¬ launched env.worker)
    (hopen : ∀ m ∈ env.queued_before,
      m.hwnd = env.CreateWindowExW_ret → m.message ≠ WM_CLOSE)
    (hfuel : env.queued_before.length + env.queued_after.length + 3 ≤ fuel) :
    ∃ t text, WinMain env fuel = (Exit.returned 0, t)
      ∧ allocations (workerRun env) = [(env.worker.new_ret, text)]
      ∧ dialogs t.ui_log = [text]
      ∧ t.heap = []
      ∧ [Call.MessageBoxW NULL text (L "启动器错误") (MB_ICONERROR ||| MB_OK),
          Call.operator_delete env.worker.new_ret,
          Call.PostMessage env.CreateWindowExW_ret WM_CLOSE 0 0] <:+: t.ui_log
      ∧ t.worker_log = workerRun env ∧ t.window = none := by
  obtain ⟨hwin0, hq0, hheap0, hwl0, hdlg0, -, -⟩ := loopEntry_facts env hr.2.2
  obtain ⟨hposted, text, halloc⟩ :=
    (worker_posts ⟨env.hStaticText, env.hProgressBar⟩ env.worker env.CreateWindowExW_ret).2 hno
  rw [WinMain_eq_messageLoop env fuel hr]
  -- the messages ahead of the notification
  have hquiet : ∀ m ∈ env.queued_before, quiet env.CreateWindowExW_ret m := by
    intro m hm hh
    have := hwf m (List.mem_append_left _ hm) hh
    exact ⟨this.1, hopen m hm hh, this.2⟩
  obtain ⟨k, rfl⟩ : ∃ k, fuel = env.queued_before.length + (k + 1) :=
    ⟨fuel - env.queued_before.length - 1, by omega⟩
  have hq0' : (loopEntry env).queue = env.queued_before
      ++ (⟨env.CreateWindowExW_ret, WM_USER + 1, 0, env.worker.new_ret⟩ :: env.queued_after) := by
    rw [hq0]
    unfold workerRun
    rw [hposted]
    simp
  obtain ⟨s2, hs2, hcar2, hs2q, hs2w⟩ := messageLoop_quiet env env.CreateWindowExW_ret
    env.queued_before _ (loopEntry env) (k + 1) hq0' hwin0 hquiet
  rw [hs2, messageLoop_cons env k s2 _ _ hs2q, if_pos hs2w]
  -- the notification itself
  have hheap2 : s2.heap = [(env.worker.new_ret, text)] := by
    rw [hcar2.2.2.1, hheap0]
    exact halloc
  obtain ⟨s3, hs3, hs3log, hs3heap, hs3q, hs3w, hs3wl, -⟩ :=
    WindowProc_notification env env.CreateWindowExW_ret 0 env.worker.new_ret text
      (({ s2.log [Call.GetMessage] with queue := env.queued_after }).log
        [Call.TranslateMessage ⟨env.CreateWindowExW_ret, WM_USER + 1, 0, env.worker.new_ret⟩,
         Call.DispatchMessage ⟨env.CreateWindowExW_ret, WM_USER + 1, 0, env.worker.new_ret⟩])
      hheap2 hs2w
  simp only [] at hs3 ⊢
  rw [hs3]
  simp only []
  -- the close request it posted
  have hcl : closes env.CreateWindowExW_ret s3.queue := by
    rw [hs3q]
    exact closes_append_close env.CreateWindowExW_ret _ [] rfl rfl env.queued_after
      (fun m hm => hwf m (List.mem_append_right _ hm))
  obtain ⟨t, ht, hcar3, htw⟩ := messageLoop_closes env env.CreateWindowExW_ret s3.queue s3 k rfl
    hs3w hcl (by rw [hs3q]; simp; omega)
  refine ⟨t, text, ht, halloc, ?_, ?_, ?_, ?_, htw⟩
  · rw [hcar3.2.1, hs3log]
    simp only [log_ui_log, dialogs_append, hcar2.2.1, hdlg0]
    simp [dialogs]
  · rw [hcar3.2.2.1, hs3heap]
  · refine List.IsInfix.trans ?_ hcar3.1.isInfix
    rw [hs3log]
    exact (List.suffix_append _ _).isInfix
  · rw [hcar3.2.2.2.1, hs3wl]
    simp only [log_worker_log]
    rw [hcar2.2.2.2.1, hwl0]

/-- A run that reaches the loop returns `0`, whichever message the worker
posts. -/
theorem WinMain_loop_returns (env : Env) (fuel : Nat) (hr : reachesLoop env)
    (hwf : env.wellFormed)
    (hfuel : env.queued_before.length + env.queued_after.length + 3 ≤ fuel) :
    ∃ t, WinMain env fuel = (Exit.returned 0, t) ∧ t.worker_log = workerRun env
      ∧ t.window = none := by
  obtain ⟨hwin0, hq0, -, hwl0, -, -, -⟩ := loopEntry_facts env hr.2.2
  have hbefore : ∀ m ∈ env.queued_before, m.hwnd = env.CreateWindowExW_ret →
      m.message ≠ WM_CREATE ∧ m.message ≠ WM_USER + 1 :=
    fun m hm => hwf m (List.mem_append_left _ hm)
  have hlen : (loopEntry env).queue.length + 1 ≤ fuel → closes env.CreateWindowExW_ret
      (loopEntry env).queue → ∃ t, WinMain env fuel = (Exit.returned 0, t)
        ∧ t.worker_log = workerRun env ∧ t.window = none := by
    intro hl hcl
    rw [WinMain_eq_messageLoop env fuel hr]
    obtain ⟨t, ht, hcar, htw⟩ := messageLoop_closes env env.CreateWindowExW_ret _
      (loopEntry env) fuel rfl hwin0 hcl hl
    exact ⟨t, ht, by rw [hcar.2.2.2.1, hwl0], htw⟩
  have hone : (postedMessages (workerRun env)).length = 1 := by
    unfold workerRun
    by_cases hl : launched env.worker
    · rw [((worker_posts _ env.worker _).1 hl).1]
      rfl
    · rw [((worker_posts _ env.worker _).2 hl).1]
      rfl
  have hl : (loopEntry env).queue.length + 1 ≤ fuel := by
    rw [hq0]
    simp only [List.length_append, hone]
    omega
  by_cases hlaunch : launched env.worker
  · apply hlen hl
    rw [hq0]
    unfold workerRun
    rw [((worker_posts _ env.worker _).1 hlaunch).1, List.append_assoc]
    exact closes_append_close env.CreateWindowExW_ret _ _ rfl rfl _ hbefore
  · by_cases hclose : ∃ m ∈ env.queued_before,
        m.hwnd = env.CreateWindowExW_ret ∧ m.message = WM_CLOSE
    · apply hlen hl
      rw [hq0, List.append_assoc]
      exact closes_of_mem _ _ _ hbefore hclose
    · obtain ⟨t, _, ht, _, _, _, _, hwl, htw⟩ := WinMain_error_handled env fuel hr hwf hlaunch
        (fun m hm hh hc => hclose ⟨m, hm, hh, hc⟩) hfuel
      exact ⟨t, ht, hwl, htw⟩

theorem dialogs_IsRunningAsAdmin (env : Env) : dialogs (IsRunningAsAdmin env).2 = [] := by
  unfold IsRunningAsAdmin
  split_ifs <;> simp [dialogs]

theorem percentages_IsRunningAsAdmin (env : Env) :
    percentages (IsRunningAsAdmin env).2 = [] := by
  unfold IsRunningAsAdmin
  split_ifs <;> simp [percentages]

/-- The loop never returns `1`. -/
theorem messageLoop_exit (env : Env) :
    ∀ (fuel : Nat) (s : UiState), (messageLoop env fuel s).1 ≠ Exit.returned 1 := by
  intro fuel
  induction fuel with
  | zero =>
    intro s
    simp [messageLoop]
  | succ f ih =>
    intro s
    rw [messageLoop]
    simp only []
    split
    · split <;> simp
    · split_ifs
      · split
        · simp
        · exact ih _
      · exact ih _

/-- The window procedure never enters `UpdateProgress`. -/
theorem WindowProc_percentages (env : Env) (hwnd : HANDLE) (uMsg : Nat) (w l : Int)
    (s t : UiState) (r : Int) (h : WindowProc env hwnd uMsg w l s = some (t, r)) :
    percentages t.ui_log = percentages s.ui_log := by
  unfold WindowProc at h
  split_ifs at h
  · obtain ⟨rfl, -⟩ := Prod.mk.inj (Option.some.inj h)
    simp [WindowProc_WM_CREATE, startWorker, percentages_append, percentages]
  · obtain ⟨rfl, -⟩ := Prod.mk.inj (Option.some.inj h)
    simp [WindowProc_WM_DESTROY, PostQuitMessage, percentages_append, percentages]
  · obtain ⟨rfl, -⟩ := Prod.mk.inj (Option.some.inj h)
    unfold DestroyWindow
    simp only [log_window]
    split_ifs <;>
      simp [WindowProc_WM_DESTROY, PostQuitMessage, percentages_append, percentages]
  · unfold HandleErrorMessage at h
    split at h
    · simp at h
    · obtain ⟨rfl, -⟩ := Prod.mk.inj (Option.some.inj h)
      unfold PostMessage
      simp only [log_window]
      split_ifs <;> simp [ShowErrorMessage, percentages_append, percentages]
  · obtain ⟨rfl, -⟩ := Prod.mk.inj (Option.some.inj h)
    simp [percentages_append, percentages]

/-- The message loop never enters `UpdateProgress`. -/
theorem messageLoop_percentages (env : Env) :
    ∀ (fuel : Nat) (s : UiState),
      percentages (messageLoop env fuel s).2.ui_log = percentages s.ui_log := by
  intro fuel
  induction fuel with
  | zero =>
    intro s
    simp [messageLoop]
  | succ f ih =>
    intro s
    rw [messageLoop]
    simp only []
    split
    · split <;> simp [percentages_append, percentages]
    · split_ifs
      · split
        · simp [percentages_append, percentages]
        · rename_i t r heq
          rw [ih, WindowProc_percentages env _ _ _ _ _ t r heq]
          simp [percentages_append, percentages]
      · rw [ih]
        simp [percentages_append, percentages]

/-- The three failures before the message loop: exit status `1` and one
dialog. -/
theorem WinMain_fails (env : Env) (fuel : Nat) :
    (((IsRunningAsAdmin env).1 = false ∧ (RestartAsAdmin env).1 = false) →
      (WinMain env fuel).1 = Exit.returned 1
      ∧ dialogs (WinMain env fuel).2.ui_log
        = [L "需要管理员权限才能运行此程序。\n请右键点击程序，选择'以管理员身份运行'。"]
      ∧ percentages (WinMain env fuel).2.ui_log = [])
    ∧ (((IsRunningAsAdmin env).1 = true ∧ env.RegisterClassW_ret = 0) →
      (WinMain env fuel).1 = Exit.returned 1
      ∧ dialogs (WinMain env fuel).2.ui_log = [L "无法注册窗口类"]
      ∧ percentages (WinMain env fuel).2.ui_log = [])
    ∧ (((IsRunningAsAdmin env).1 = true ∧ env.RegisterClassW_ret ≠ 0
        ∧ env.CreateWindowExW_ret = NULL) →
      (WinMain env fuel).1 = Exit.returned 1
      ∧ dialogs (WinMain env fuel).2.ui_log = [L "无法创建窗口"]
      ∧ percentages (WinMain env fuel).2.ui_log = []) := by
  refine ⟨?_, ?_, ?_⟩
  · rintro ⟨ha, hs⟩
    unfold WinMain
    simp only [ha, hs, Bool.not_false, if_true, Bool.false_eq_true, if_false]
    refine ⟨trivial, ?_, ?_⟩
    · simp only [log_ui_log, dialogs_append, dialogs_IsRunningAsAdmin]
      simp [UiState.init, RestartAsAdmin, ShowErrorMessage, dialogs]
    · simp only [log_ui_log, percentages_append, percentages_IsRunningAsAdmin]
      simp [UiState.init, RestartAsAdmin, ShowErrorMessage, percentages]
  · rintro ⟨ha, hreg⟩
    have hreg2 : (RegisterWindowClass env env.hInstance).1 = 0 := by
      simpa [RegisterWindowClass] using hreg
    unfold WinMain
    simp only [ha, Bool.not_true, Bool.false_eq_true, if_false, hreg2, if_true]
    refine ⟨trivial, ?_, ?_⟩
    · simp only [log_ui_log, dialogs_append, dialogs_IsRunningAsAdmin]
      simp [UiState.init, RegisterWindowClass, ShowErrorMessage, dialogs]
    · simp only [log_ui_log, percentages_append, percentages_IsRunningAsAdmin]
      simp [UiState.init, RegisterWindowClass, ShowErrorMessage, percentages]
  · rintro ⟨ha, hreg, hwin⟩
    have hreg2 : ¬ ((RegisterWindowClass env env.hInstance).1 = 0) := by
      simpa [RegisterWindowClass] using hreg
    have hcw : ∀ s, CreateMainWindow env env.hInstance s
        = (NULL, s.log [Call.CreateWindowExW
            { dwExStyle := 0, lpClassName := L "NokiLauncherWindow",
              lpWindowName := some (L "Noki启动器 (管理员模式)"),
              dwStyle := WS_OVERLAPPED ||| WS_CAPTION ||| WS_SYSMENU ||| WS_MINIMIZEBOX,
              X := CW_USEDEFAULT, Y := CW_USEDEFAULT, nWidth := 420, nHeight := 180,
              hWndParent := NULL, hMenu := NULL, hInstance := env.hInstance }]) := by
      intro s
      unfold CreateMainWindow
      simp only [hwin, ne_eq, not_true_eq_false, if_false]
    unfold WinMain
    simp only [ha, Bool.not_true, Bool.false_eq_true, if_false, hreg2, hcw, if_true]
    refine ⟨trivial, ?_, ?_⟩
    · simp only [log_ui_log, dialogs_append, dialogs_IsRunningAsAdmin]
      simp [UiState.init, RegisterWindowClass, ShowErrorMessage, dialogs]
    · simp only [log_ui_log, percentages_append, percentages_IsRunningAsAdmin]
      simp [UiState.init, RegisterWindowClass, ShowErrorMessage, percentages]

/-- Every run fails before the loop, or hands off to the elevated instance,
or reaches the loop. -/
theorem run_cases (env : Env) :
    failsBeforeLoop env
    ∨ ((IsRunningAsAdmin env).1 = false ∧ (RestartAsAdmin env).1 = true)
    ∨ reachesLoop env := by
  unfold failsBeforeLoop reachesLoop
  cases (IsRunningAsAdmin env).1 <;> cases (RestartAsAdmin env).1 <;>
    by_cases h1 : env.RegisterClassW_ret = 0 <;>
    by_cases h2 : env.CreateWindowExW_ret = NULL <;> simp [h1, h2]

/-- The UI thread never enters `UpdateProgress`. -/
theorem WinMain_percentages (env : Env) (fuel : Nat) :
    percentages (WinMain env fuel).2.ui_log = [] := by
  rcases run_cases env with hf | ⟨ha, hs⟩ | hr
  · rcases hf with h | h | h
    · exact ((WinMain_fails env fuel).1 h).2.2
    · exact ((WinMain_fails env fuel).2.1 h).2.2
    · exact ((WinMain_fails env fuel).2.2 h).2.2
  · unfold WinMain
    simp only [ha, hs, Bool.not_false, if_true]
    simp only [log_ui_log, percentages_append, percentages_IsRunningAsAdmin]
    simp [UiState.init, RestartAsAdmin, percentages]
  · rw [WinMain_eq_messageLoop env fuel hr, messageLoop_percentages]
    exact (loopEntry_facts env hr.2.2).2.2.2.2.2.1

/-- The run that hands off to the elevated instance. -/
theorem WinMain_handoff (env : Env) (fuel : Nat)
    (hadmin : (IsRunningAsAdmin env).1 = false)
    (hrestart : (RestartAsAdmin env).1 = true) :
    WinMain env fuel
      = (Exit.returned 0,
          (UiState.init.log (IsRunningAsAdmin env).2).log (RestartAsAdmin env).2) := by
  unfold WinMain
  simp [hadmin, hrestart]

/-- The direct UI calls inside `UpdateProgress`. -/
theorem isDirectUi_UpdateProgress (g : Globals) (p : Int) (m : WString) (c : Call)
    (hc : c ∈ UpdateProgress g p m) (hd : c.isDirectUi = true) :
    (∃ msg, c = Call.SetWindowTextW g.g_hStaticText msg)
      ∨ (∃ q, c = Call.SendMessage g.g_hProgressBar PBM_SETPOS q 0) := by
  unfold UpdateProgress at hc
  rcases List.mem_append.mp hc with hc | hc
  · rcases List.mem_append.mp hc with hc | hc
    · rw [List.mem_singleton] at hc
      subst hc
      simp [Call.isDirectUi] at hd
    · split_ifs at hc
      · rw [List.mem_singleton] at hc
        exact Or.inl ⟨m, hc⟩
      · simp at hc
  · split_ifs at hc
    · rw [List.mem_singleton] at hc
      exact Or.inr ⟨p, hc⟩
    · simp at hc

/-- The direct UI calls of the worker are those inside `UpdateProgress`. -/
theorem isDirectUi_checkAndLaunch (g : Globals) (env : WorkerEnv) (hwnd : HANDLE) (c : Call)
    (hc : c ∈ checkAndLaunch g env hwnd) (hd : c.isDirectUi = true) :
    (∃ msg, c = Call.SetWindowTextW g.g_hStaticText msg)
      ∨ (∃ q, c = Call.SendMessage g.g_hProgressBar PBM_SETPOS q 0) := by
  have hup := isDirectUi_UpdateProgress g
  have hpro : c ∈ workerPrologue g env →
      (∃ msg, c = Call.SetWindowTextW g.g_hStaticText msg)
        ∨ (∃ q, c = Call.SendMessage g.g_hProgressBar PBM_SETPOS q 0) := by
    intro h
    unfold workerPrologue at h
    simp only [List.mem_append, List.mem_singleton] at h
    rcases h with ((((h | h) | h) | h) | h) | h
    · subst h; simp [Call.isDirectUi] at hd
    · exact hup _ _ c h hd
    · subst h; simp [Call.isDirectUi] at hd
    · exact hup _ _ c h hd
    · subst h; simp [Call.isDirectUi] at hd
    · subst h; simp [Call.isDirectUi] at hd
  rcases exists_outcome_cases env with ⟨he, hcr⟩ | ⟨he, hcr⟩ | he | ⟨what, he⟩
  · rw [checkAndLaunch_launched g env hwnd he hcr] at hc
    simp only [List.mem_append, List.mem_singleton, List.mem_cons, List.mem_nil_iff,
      or_false] at hc
    rcases hc with h | ((h | h) | h) | (((h | h) | h) | h) | h
    · exact hpro h
    · exact hup _ _ c h hd
    · subst h; simp [Call.isDirectUi] at hd
    · subst h; simp [Call.isDirectUi] at hd
    · subst h; simp [Call.isDirectUi] at hd
    · subst h; simp [Call.isDirectUi] at hd
    · exact hup _ _ c h hd
    · subst h; simp [Call.isDirectUi] at hd
    · subst h; simp [Call.isDirectUi] at hd
  · rw [checkAndLaunch_launch_failed g env hwnd he hcr] at hc
    simp only [List.mem_append, List.mem_singleton, List.mem_cons, List.mem_nil_iff,
      or_false] at hc
    rcases hc with h | ((h | h) | h) | h | h | h
    · exact hpro h
    · exact hup _ _ c h hd
    · subst h; simp [Call.isDirectUi] at hd
    · subst h; simp [Call.isDirectUi] at hd
    · subst h; simp [Call.isDirectUi] at hd
    · subst h; simp [Call.isDirectUi] at hd
    · subst h; simp [Call.isDirectUi] at hd
  · rw [checkAndLaunch_missing g env hwnd he] at hc
    simp only [List.mem_append, List.mem_singleton, List.mem_cons, List.mem_nil_iff,
      or_false] at hc
    rcases hc with h | h | h
    · exact hpro h
    · subst h; simp [Call.isDirectUi] at hd
    · subst h; simp [Call.isDirectUi] at hd
  · rw [checkAndLaunch_threw g env hwnd what he] at hc
    simp only [List.mem_append, List.mem_singleton, List.mem_cons, List.mem_nil_iff,
      or_false] at hc
    rcases hc with h | h | h
    · exact hpro h
    · subst h; simp [Call.isDirectUi] at hd
    · subst h; simp [Call.isDirectUi] at hd

theorem updatesDirectly_append (g : Globals) (a b : List Call)
    (ha : updatesDirectly g a) (hb : updatesDirectly g b) : updatesDirectly g (a ++ b) := by
  intro p m hmem
  rcases List.mem_append.mp hmem with h | h
  · exact ⟨fun hs => List.mem_append_left _ ((ha p m h).1 hs),
      fun hp => List.mem_append_left _ ((ha p m h).2 hp)⟩
  · exact ⟨fun hs => List.mem_append_right _ ((hb p m h).1 hs),
      fun hp => List.mem_append_right _ ((hb p m h).2 hp)⟩

theorem updatesDirectly_of_percentages (g : Globals) (a : List Call)
    (ha : percentages a = []) : updatesDirectly g a := by
  intro p m hmem
  have hp : p ∈ percentages a := by
    unfold percentages
    exact List.mem_filterMap.mpr ⟨_, hmem, rfl⟩
  rw [ha] at hp
  exact absurd hp (List.not_mem_nil _)

theorem updatesDirectly_UpdateProgress (g : Globals) (p : Int) (m : WString) :
    updatesDirectly g (UpdateProgress g p m) := by
  intro q n hmem
  have hq : q = p ∧ n = m := by
    unfold UpdateProgress at hmem
    rcases List.mem_append.mp hmem with h | h
    · rcases List.mem_append.mp h with h | h
      · rw [List.mem_singleton] at h
        injection h with h1 h2
        exact ⟨h1, h2⟩
      · split_ifs at h <;> simp at h
    · split_ifs at h <;> simp at h
  obtain ⟨rfl, rfl⟩ := hq
  unfold UpdateProgress
  constructor
  · intro hs
    simp [hs]
  · intro hp
    simp [hp]

theorem updatesDirectly_workerPrologue (g : Globals) (env : WorkerEnv) :
    updatesDirectly g (workerPrologue g env) := by
  unfold workerPrologue
  refine updatesDirectly_append g _ _ (updatesDirectly_append g _ _ (updatesDirectly_append g _ _
    (updatesDirectly_append g _ _ (updatesDirectly_append g _ _ ?_ ?_) ?_) ?_) ?_) ?_
  · exact updatesDirectly_of_percentages g _ (by simp [percentages])
  · exact updatesDirectly_UpdateProgress g _ _
  · exact updatesDirectly_of_percentages g _ (by simp [percentages])
  · exact updatesDirectly_UpdateProgress g _ _
  · exact updatesDirectly_of_percentages g _ (by simp [percentages])
  · exact updatesDirectly_of_percentages g _ (by simp [percentages])

/-- Each progress step of the worker operates on the two controls. -/
theorem updatesDirectly_checkAndLaunch (g : Globals) (env : WorkerEnv) (hwnd : HANDLE) :
    updatesDirectly g (checkAndLaunch g env hwnd) := by
  have hpro := updatesDirectly_workerPrologue g env
  rcases exists_outcome_cases env with ⟨he, hcr⟩ | ⟨he, hcr⟩ | he | ⟨what, he⟩
  · rw [checkAndLaunch_launched g env hwnd he hcr]
    refine updatesDirectly_append g _ _ hpro (updatesDirectly_append g _ _
      (updatesDirectly_append g _ _ (updatesDirectly_append g _ _ ?_ ?_) ?_)
      (updatesDirectly_append g _ _ (updatesDirectly_append g _ _
        (updatesDirectly_append g _ _ ?_ ?_) ?_) ?_))
    · exact updatesDirectly_UpdateProgress g _ _
    · exact updatesDirectly_of_percentages g _ (by simp [percentages])
    · exact updatesDirectly_of_percentages g _ (by simp [percentages])
    · exact updatesDirectly_of_percentages g _ (by simp [percentages])
    · exact updatesDirectly_UpdateProgress g _ _
    · exact updatesDirectly_of_percentages g _ (by simp [percentages])
    · exact updatesDirectly_of_percentages g _ (by simp [percentages])
  · rw [checkAndLaunch_launch_failed g env hwnd he hcr]
    refine updatesDirectly_append g _ _ hpro (updatesDirectly_append g _ _
      (updatesDirectly_append g _ _ (updatesDirectly_append g _ _ ?_ ?_) ?_) ?_)
    · exact updatesDirectly_UpdateProgress g _ _
    · exact updatesDirectly_of_percentages g _ (by simp [percentages])
    · exact updatesDirectly_of_percentages g _ (by simp [percentages])
    · exact updatesDirectly_of_percentages g _ (by simp [percentages])
  · rw [checkAndLaunch_missing g env hwnd he]
    exact updatesDirectly_append g _ _ hpro
      (updatesDirectly_of_percentages g _ (by simp [percentages]))
  · rw [checkAndLaunch_threw g env hwnd what he]
    exact updatesDirectly_append g _ _ hpro
      (updatesDirectly_of_percentages g _ (by simp [percentages]))

/-! ## The claims -/

/-- C1. In every run of `checkAndLaunch`, whatever the environment answers,
the percentages passed to `UpdateProgress`, in call order, form a prefix of
`[10, 30, 60, 100]` whose first element is `10`; they are non-decreasing and lie
in `0..100`; and `100` is among them exactly when `CreateProcessW` was called
and returned a non-zero value. -/
theorem C1_progress_sequence (g : Globals) (env : WorkerEnv) (hwnd : HANDLE) :
    percentages (checkAndLaunch g env hwnd) <+: [10, 30, 60, 100]
    ∧ (percentages (checkAndLaunch g env hwnd)).head? = some 10
    ∧ (percentages (checkAndLaunch g env hwnd)).Pairwise (fun a b => a ≤ b)
    ∧ (∀ p ∈ percentages (checkAndLaunch g env hwnd), 0 ≤ p ∧ p ≤ 100)
    ∧ (100 ∈ percentages (checkAndLaunch g env hwnd) ↔
        (createProcessCalls (checkAndLaunch g env hwnd) ≠ []
          ∧ env.CreateProcessW_ret ≠ 0)) := by
  rcases exists_outcome_cases env with ⟨he, hc⟩ | ⟨he, hc⟩ | he | ⟨what, he⟩
  · rw [checkAndLaunch_launched g env hwnd he hc]
    simp only [percentages_append, percentages_UpdateProgress, percentages_workerPrologue,
      createProcessCalls_append, createProcessCalls_UpdateProgress,
      createProcessCalls_workerPrologue]
    simp [percentages, createProcessCalls, hc]
  · rw [checkAndLaunch_launch_failed g env hwnd he hc]
    simp only [percentages_append, percentages_UpdateProgress, percentages_workerPrologue,
      createProcessCalls_append, createProcessCalls_UpdateProgress,
      createProcessCalls_workerPrologue]
    simp [percentages, createProcessCalls, hc]
  · rw [checkAndLaunch_missing g env hwnd he]
    simp only [percentages_append, percentages_UpdateProgress, percentages_workerPrologue,
      createProcessCalls_append, createProcessCalls_UpdateProgress,
      createProcessCalls_workerPrologue]
    simp [percentages, createProcessCalls]
  · rw [checkAndLaunch_threw g env hwnd what he]
    simp only [percentages_append, percentages_UpdateProgress, percentages_workerPrologue,
      createProcessCalls_append, createProcessCalls_UpdateProgress,
      createProcessCalls_workerPrologue]
    simp [percentages, createProcessCalls]

/-- C2. When the existence check on the computed target path (the parent of
the own-executable path, joined with `dist`, joined with `Noki_HBR_Auto.exe`)
answers `false`, `checkAndLaunch` makes exactly one `PostMessage` call, the
notification `WM_USER + 1` carrying the address of the one string it allocated;
that string contains the whole computed path; no `CreateProcessW` call is made;
and neither `60` nor `100` is passed to `UpdateProgress`. -/
theorem C2_missing_target (g : Globals) (env : WorkerEnv) (hwnd : HANDLE)
    (he : env.exists_outcome = ExistsOutcome.returns false) :
    exe_path env = env.fs.append
        (env.fs.append (env.fs.parent_path env.current_path) (L "dist"))
        (L "Noki_HBR_Auto.exe")
    ∧ Call.fs_exists (exe_path env) ∈ checkAndLaunch g env hwnd
    ∧ postedMessages (checkAndLaunch g env hwnd) = [⟨hwnd, WM_USER + 1, 0, env.new_ret⟩]
    ∧ (∃ text, allocations (checkAndLaunch g env hwnd) = [(env.new_ret, text)]
        ∧ exe_path env <:+: text)
    ∧ createProcessCalls (checkAndLaunch g env hwnd) = []
    ∧ 60 ∉ percentages (checkAndLaunch g env hwnd)
    ∧ 100 ∉ percentages (checkAndLaunch g env hwnd) := by
  rw [checkAndLaunch_missing g env hwnd he]
  refine ⟨rfl, ?_, ?_, ?_, ?_, ?_, ?_⟩
  · simp [workerPrologue]
  · simp only [postedMessages_append, postedMessages_workerPrologue]
    simp [postedMessages]
  · refine ⟨L "目标程序不存在:\n" ++ exe_path env, ?_, ?_⟩
    · simp only [allocations_append, allocations_workerPrologue]
      simp [allocations]
    · exact (List.suffix_append _ _).isInfix
  · simp only [createProcessCalls_append, createProcessCalls_workerPrologue]
    simp [createProcessCalls]
  · simp only [percentages_append, percentages_workerPrologue]
    simp [percentages]
  · simp only [percentages_append, percentages_workerPrologue]
    simp [percentages]

/-- C2 at a concrete input: the launcher is `C:\Noki\launcher.exe`, the target
is absent, and the one message posted to window `7` is `WM_USER + 1` (1025)
with the address of the report. -/
theorem C2_missing_target_witness :
    postedMessages
        (checkAndLaunch sampleGlobals (sampleWorkerEnv (ExistsOutcome.returns false) 0) 7)
      = [⟨7, 1025, 0, 4096⟩] :=
  (C2_missing_target sampleGlobals (sampleWorkerEnv (ExistsOutcome.returns false) 0) 7
    rfl).2.2.1

/-- C3. When the target exists and `CreateProcessW` fails, then for every error
code `GetLastError` returns, `checkAndLaunch` makes exactly one `PostMessage`
call, the notification `WM_USER + 1` (so it posts no `WM_CLOSE` itself) carrying
the address of the one string it allocated; that string contains the decimal
digits of the error code; `100` is not passed to `UpdateProgress`; and
`CreateProcessW` is called exactly once. -/
theorem C3_launch_failure (g : Globals) (env : WorkerEnv) (hwnd : HANDLE)
    (he : env.exists_outcome = ExistsOutcome.returns true)
    (hc : env.CreateProcessW_ret = 0) :
    postedMessages (checkAndLaunch g env hwnd) = [⟨hwnd, WM_USER + 1, 0, env.new_ret⟩]
    ∧ (∃ text, allocations (checkAndLaunch g env hwnd) = [(env.new_ret, text)]
        ∧ to_wstring env.last_error <:+: text)
    ∧ to_wstring env.last_error = L (toString env.last_error)
    ∧ (∀ w l, Call.PostMessage hwnd WM_CLOSE w l ∉ checkAndLaunch g env hwnd)
    ∧ 100 ∉ percentages (checkAndLaunch g env hwnd)
    ∧ createProcessCalls (checkAndLaunch g env hwnd) = [createProcessArgs env] := by
  have hposted : postedMessages (checkAndLaunch g env hwnd)
      = [⟨hwnd, WM_USER + 1, 0, env.new_ret⟩] := by
    rw [checkAndLaunch_launch_failed g env hwnd he hc]
    simp only [postedMessages_append, postedMessages_workerPrologue,
      postedMessages_UpdateProgress]
    simp [postedMessages]
  refine ⟨hposted, ?_, rfl, ?_, ?_, ?_⟩
  · rw [checkAndLaunch_launch_failed g env hwnd he hc]
    refine ⟨L "无法启动程序: " ++ exe_path env ++ L "\n错误代码: " ++ to_wstring env.last_error,
      ?_, ?_⟩
    · simp only [allocations_append, allocations_workerPrologue, allocations_UpdateProgress]
      simp [allocations]
    · exact (List.suffix_append _ _).isInfix
  · intro w l hmem
    have hm : (⟨hwnd, WM_CLOSE, w, l⟩ : MSG) ∈ postedMessages (checkAndLaunch g env hwnd) := by
      unfold postedMessages
      exact List.mem_filterMap.mpr ⟨_, hmem, rfl⟩
    rw [hposted] at hm
    simp [WM_CLOSE, WM_USER] at hm
  · rw [checkAndLaunch_launch_failed g env hwnd he hc]
    simp only [percentages_append, percentages_workerPrologue, percentages_UpdateProgress]
    simp [percentages]
  · rw [checkAndLaunch_launch_failed g env hwnd he hc]
    simp only [createProcessCalls_append, createProcessCalls_workerPrologue,
      createProcessCalls_UpdateProgress]
    simp [createProcessCalls]

/-- C3 at a concrete input: the target exists, `CreateProcessW` returns `0` and
`GetLastError` returns `5`; the one message posted is the error notification. -/
theorem C3_launch_failure_witness :
    postedMessages
        (checkAndLaunch sampleGlobals (sampleWorkerEnv (ExistsOutcome.returns true) 0) 7)
      = [⟨7, 1025, 0, 4096⟩] :=
  (C3_launch_failure sampleGlobals (sampleWorkerEnv (ExistsOutcome.returns true) 0) 7
    rfl rfl).1

/-- C4. When `IsRunningAsAdmin` returns `false` and `RestartAsAdmin` returns
`true`, `WinMain` returns `0`; the calls it made are those of the two checks
and nothing else, so no window class is registered, no window is created, no
dialog is shown and no worker is started. -/
theorem C4_elevation_handoff (env : Env) (fuel : Nat)
    (hadmin : (IsRunningAsAdmin env).1 = false)
    (hrestart : (RestartAsAdmin env).1 = true) :
    (WinMain env fuel).1 = Exit.returned 0
    ∧ (WinMain env fuel).2.ui_log = (IsRunningAsAdmin env).2 ++ (RestartAsAdmin env).2
    ∧ (∀ wc, Call.RegisterClassW wc ∉ (WinMain env fuel).2.ui_log)
    ∧ (∀ a, Call.CreateWindowExW a ∉ (WinMain env fuel).2.ui_log)
    ∧ (∀ a, Call.CreateWindowW a ∉ (WinMain env fuel).2.ui_log)
    ∧ dialogs (WinMain env fuel).2.ui_log = []
    ∧ (∀ h, Call.thread_detach h ∉ (WinMain env fuel).2.ui_log)
    ∧ (WinMain env fuel).2.worker_log = []
    ∧ (WinMain env fuel).2.window = none := by
  have hlog := WinMain_handoff env fuel hadmin hrestart
  have hui : (WinMain env fuel).2.ui_log
      = (IsRunningAsAdmin env).2 ++ (RestartAsAdmin env).2 := by
    rw [hlog]
    simp [UiState.log, UiState.init]
  refine ⟨by rw [hlog], hui, ?_, ?_, ?_, ?_, ?_, by rw [hlog]; rfl, by rw [hlog]; rfl⟩
  · intro wc
    rw [hui]
    unfold IsRunningAsAdmin RestartAsAdmin
    split_ifs <;> simp
  · intro a
    rw [hui]
    unfold IsRunningAsAdmin RestartAsAdmin
    split_ifs <;> simp
  · intro a
    rw [hui]
    unfold IsRunningAsAdmin RestartAsAdmin
    split_ifs <;> simp
  · rw [hui]
    unfold IsRunningAsAdmin RestartAsAdmin
    split_ifs <;> simp [dialogs]
  · intro h
    rw [hui]
    unfold IsRunningAsAdmin RestartAsAdmin
    split_ifs <;> simp

/-- C4 at a concrete input: the token is not in the administrators group and
`ShellExecuteExW` returns `TRUE`. -/
theorem C4_elevation_handoff_witness :
    (WinMain (sampleEnv 0 1 (ExistsOutcome.returns true) 1) 0).1 = Exit.returned 0 :=
  (C4_elevation_handoff (sampleEnv 0 1 (ExistsOutcome.returns true) 1) 0
    (by decide) (by decide)).1

/-- C5. A run of `WinMain` that fails before the message loop, by (a) not
elevated and the elevation request returning `false`, (b) elevated and the
class registration failing, or (c) elevated, registered and `CreateWindowExW`
returning `NULL`, shows exactly one modal dialog and returns `1`.  The exit
status is `1` exactly in these runs; every other run (with no forged `WM_CREATE`
or `WM_USER + 1` in the queue, and enough loop iterations granted) returns
`0`. -/
theorem C5_exit_status (env : Env) (fuel : Nat) :
    (failsBeforeLoop env →
      (WinMain env fuel).1 = Exit.returned 1
      ∧ (dialogs (WinMain env fuel).2.ui_log).length = 1)
    ∧ ((WinMain env fuel).1 = Exit.returned 1 ↔ failsBeforeLoop env)
    ∧ (¬ failsBeforeLoop env → env.wellFormed →
        env.queued_before.length + env.queued_after.length + 3 ≤ fuel →
        (WinMain env fuel).1 = Exit.returned 0) := by
  have hfail : failsBeforeLoop env →
      (WinMain env fuel).1 = Exit.returned 1
      ∧ (dialogs (WinMain env fuel).2.ui_log).length = 1 := by
    intro hf
    rcases hf with h | h | h
    · obtain ⟨h1, h2, -⟩ := (WinMain_fails env fuel).1 h
      exact ⟨h1, by rw [h2]; rfl⟩
    · obtain ⟨h1, h2, -⟩ := (WinMain_fails env fuel).2.1 h
      exact ⟨h1, by rw [h2]; rfl⟩
    · obtain ⟨h1, h2, -⟩ := (WinMain_fails env fuel).2.2 h
      exact ⟨h1, by rw [h2]; rfl⟩
  refine ⟨hfail, ⟨?_, fun hf => (hfail hf).1⟩, ?_⟩
  · intro hone
    rcases run_cases env with hf | ⟨ha, hs⟩ | hr
    · exact hf
    · rw [WinMain_handoff env fuel ha hs] at hone
      exact absurd hone (by simp)
    · rw [WinMain_eq_messageLoop env fuel hr] at hone
      exact absurd hone (messageLoop_exit env fuel _)
  · intro hnf hwf hfuel
    rcases run_cases env with hf | ⟨ha, hs⟩ | hr
    · exact absurd hf hnf
    · rw [WinMain_handoff env fuel ha hs]
    · obtain ⟨t, ht, -, -⟩ := WinMain_loop_returns env fuel hr hwf hfuel
      rw [ht]

/-- C5 at concrete inputs: the elevation request is refused (exit status `1`,
one dialog), and an elevated run whose target is missing (exit status `0`). -/
theorem C5_exit_status_witness :
    ((WinMain (sampleEnv 0 0 (ExistsOutcome.returns true) 1) 0).1 = Exit.returned 1
      ∧ (dialogs (WinMain (sampleEnv 0 0 (ExistsOutcome.returns true) 1) 0).2.ui_log).length = 1)
    ∧ (WinMain (sampleEnv 1 1 (ExistsOutcome.returns false) 0) 4).1 = Exit.returned 0 :=
  ⟨(C5_exit_status (sampleEnv 0 0 (ExistsOutcome.returns true) 1) 0).1 (by decide),
   (C5_exit_status (sampleEnv 1 1 (ExistsOutcome.returns false) 0) 4).2.2
     (by decide) (by decide) (by decide)⟩

/-- C7 as stated fails.  In the run where every step succeeds (elevated, window
`7`, status label `21`, progress bar `23`, target started) the worker thread
itself calls `SetWindowTextW` on the status label and `SendMessage(PBM_SETPOS)`
on the progress bar, and all four entries into `UpdateProgress` are on the
worker thread, none on the UI thread. -/
theorem C7_counterexample :
    ¬ ((∀ c ∈ (WinMain (sampleEnv 1 1 (ExistsOutcome.returns true) 1) 10).2.worker_log,
          c.isDirectUi = false)
        ∧ percentages (WinMain (sampleEnv 1 1 (ExistsOutcome.returns true) 1) 10).2.worker_log
            = [])
    ∧ Call.SetWindowTextW 21 (L "正在初始化...")
        ∈ (WinMain (sampleEnv 1 1 (ExistsOutcome.returns true) 1) 10).2.worker_log
    ∧ Call.SendMessage 23 PBM_SETPOS 10 0
        ∈ (WinMain (sampleEnv 1 1 (ExistsOutcome.returns true) 1) 10).2.worker_log
    ∧ percentages (WinMain (sampleEnv 1 1 (ExistsOutcome.returns true) 1) 10).2.worker_log
        = [10, 30, 60, 100]
    ∧ percentages (WinMain (sampleEnv 1 1 (ExistsOutcome.returns true) 1) 10).2.ui_log
        = [] := by
  decide

/-- C7, amended.  In a run that reaches the message loop, the worker thread
runs `checkAndLaunch`, and `checkAndLaunch` calls `UpdateProgress` itself: its
first entry is with `10`, and each entry comes with `SetWindowTextW` on the
status label and `SendMessage(PBM_SETPOS)` on the progress bar (when the handle
is non-null), made by the worker; these are the only calls by which the worker
operates on a window directly.  Besides that it reaches the UI by exactly one
`PostMessage` to the main window: `WM_CLOSE` when it started the target, the
notification `WM_USER + 1` otherwise.  The UI thread never enters
`UpdateProgress`. -/
theorem C7_worker_updates_directly (env : Env) (fuel : Nat) (hr : reachesLoop env)
    (hwf : env.wellFormed)
    (hfuel : env.queued_before.length + env.queued_after.length + 3 ≤ fuel) :
    (WinMain env fuel).2.worker_log = workerRun env
    ∧ (percentages (workerRun env)).head? = some 10
    ∧ (∀ p m, Call.enter_UpdateProgress p m ∈ workerRun env →
        (env.hStaticText ≠ NULL → Call.SetWindowTextW env.hStaticText m ∈ workerRun env)
        ∧ (env.hProgressBar ≠ NULL →
            Call.SendMessage env.hProgressBar PBM_SETPOS p 0 ∈ workerRun env))
    ∧ (∀ c ∈ workerRun env, c.isDirectUi = true →
        (∃ msg, c = Call.SetWindowTextW env.hStaticText msg)
          ∨ (∃ q, c = Call.SendMessage env.hProgressBar PBM_SETPOS q 0))
    ∧ postedMessages (workerRun env)
        = [if launched env.worker then ⟨env.CreateWindowExW_ret, WM_CLOSE, 0, 0⟩
           else ⟨env.CreateWindowExW_ret, WM_USER + 1, 0, env.worker.new_ret⟩]
    ∧ percentages (WinMain env fuel).2.ui_log = [] := by
  refine ⟨?_, ?_, ?_, ?_, ?_, WinMain_percentages env fuel⟩
  · obtain ⟨t, ht, hwl, -⟩ := WinMain_loop_returns env fuel hr hwf hfuel
    rw [ht]
    exact hwl
  · unfold workerRun
    rcases exists_outcome_cases env.worker with ⟨he, hcr⟩ | ⟨he, hcr⟩ | he | ⟨what, he⟩
    · rw [checkAndLaunch_launched _ _ _ he hcr]
      simp only [percentages_append, percentages_workerPrologue]
      rfl
    · rw [checkAndLaunch_launch_failed _ _ _ he hcr]
      simp only [percentages_append, percentages_workerPrologue]
      rfl
    · rw [checkAndLaunch_missing _ _ _ he]
      simp only [percentages_append, percentages_workerPrologue]
      rfl
    · rw [checkAndLaunch_threw _ _ _ what he]
      simp only [percentages_append, percentages_workerPrologue]
      rfl
  · exact updatesDirectly_checkAndLaunch ⟨env.hStaticText, env.hProgressBar⟩ env.worker _
  · intro c hc hd
    exact isDirectUi_checkAndLaunch _ env.worker _ c hc hd
  · unfold workerRun
    by_cases hl : launched env.worker
    · rw [if_pos hl]
      exact ((worker_posts _ env.worker _).1 hl).1
    · rw [if_neg hl]
      exact ((worker_posts _ env.worker _).2 hl).1

/-- C7 (amended) at a concrete input: every step succeeds, and the log of the
worker thread is the log of `checkAndLaunch`. -/
theorem C7_worker_updates_directly_witness :
    (WinMain (sampleEnv 1 1 (ExistsOutcome.returns true) 1) 4).2.worker_log
      = workerRun (sampleEnv 1 1 (ExistsOutcome.returns true) 1) :=
  (C7_worker_updates_directly (sampleEnv 1 1 (ExistsOutcome.returns true) 1) 4
    (by decide) (by decide) (by decide)).1

/-- C8. `IsRunningAsAdmin` returns `true` exactly when `AllocateAndInitializeSid`
succeeds, `CheckTokenMembership` succeeds and the value it stored is `TRUE`;
when the allocation or the query fails the result is `false`, whatever value
the query left in its output. -/
theorem C8_admin_check (env : Env) :
    ((IsRunningAsAdmin env).1 = true ↔
      (env.AllocateAndInitializeSid_ret ≠ 0 ∧ env.CheckTokenMembership_ret ≠ 0
        ∧ env.IsMember = TRUE))
    ∧ ((env.AllocateAndInitializeSid_ret = 0 ∨ env.CheckTokenMembership_ret = 0) →
        (IsRunningAsAdmin env).1 = false) := by
  unfold IsRunningAsAdmin
  by_cases ha : env.AllocateAndInitializeSid_ret = 0
  · simp [ha, TRUE, FALSE]
  · by_cases hq : env.CheckTokenMembership_ret = 0
    · simp [ha, hq, TRUE, FALSE]
    · simp [ha, hq]

/-- C9. When `CreateProcessW` is called and succeeds, the log is some calls
without `CloseHandle`, then `CreateProcessW`, then `CloseHandle(pi.hProcess)`
and `CloseHandle(pi.hThread)`, then calls without `CloseHandle`; `100` is passed
to `UpdateProgress` and the close request is posted only in the last part.  So
the two handles are the only ones closed, once each, right after creation.  In
every other run no handle is closed. -/
theorem C9_handles_closed (g : Globals) (env : WorkerEnv) (hwnd : HANDLE) :
    ((env.exists_outcome = ExistsOutcome.returns true ∧ env.CreateProcessW_ret ≠ 0) →
      closedHandles (checkAndLaunch g env hwnd) = [env.hProcess, env.hThread]
      ∧ ∃ before after,
          checkAndLaunch g env hwnd
            = before ++ [Call.CreateProcessW (createProcessArgs env),
                Call.CloseHandle env.hProcess, Call.CloseHandle env.hThread] ++ after
          ∧ closedHandles before = [] ∧ closedHandles after = []
          ∧ createProcessCalls before = [] ∧ createProcessCalls after = []
          ∧ percentages before = [10, 30, 60] ∧ percentages after = [100]
          ∧ postedMessages before = []
          ∧ postedMessages after = [⟨hwnd, WM_CLOSE, 0, 0⟩])
    ∧ (¬ (env.exists_outcome = ExistsOutcome.returns true ∧ env.CreateProcessW_ret ≠ 0) →
        closedHandles (checkAndLaunch g env hwnd) = []) := by
  constructor
  · rintro ⟨he, hc⟩
    rw [checkAndLaunch_launched g env hwnd he hc]
    constructor
    · simp only [closedHandles_append, closedHandles_workerPrologue,
        closedHandles_UpdateProgress]
      simp [closedHandles]
    · refine ⟨workerPrologue g env ++ (UpdateProgress g 60 (L "正在启动目标程序...")
          ++ [Call.sleep_for 500]),
        UpdateProgress g 100 (L "启动成功！") ++ [Call.sleep_for 1000]
          ++ [Call.PostMessage hwnd WM_CLOSE 0 0], ?_, ?_, ?_, ?_, ?_, ?_, ?_, ?_, ?_⟩
      · simp only [List.append_assoc, List.cons_append, List.nil_append, List.singleton_append]
      · simp only [closedHandles_append, closedHandles_workerPrologue,
          closedHandles_UpdateProgress]
        simp [closedHandles]
      · simp only [closedHandles_append, closedHandles_UpdateProgress]
        simp [closedHandles]
      · simp only [createProcessCalls_append, createProcessCalls_workerPrologue,
          createProcessCalls_UpdateProgress]
        simp [createProcessCalls]
      · simp only [createProcessCalls_append, createProcessCalls_UpdateProgress]
        simp [createProcessCalls]
      · simp only [percentages_append, percentages_workerPrologue, percentages_UpdateProgress]
        simp [percentages]
      · simp only [percentages_append, percentages_UpdateProgress]
        simp [percentages]
      · simp only [postedMessages_append, postedMessages_workerPrologue,
          postedMessages_UpdateProgress]
        simp [postedMessages]
      · simp only [postedMessages_append, postedMessages_UpdateProgress]
        simp [postedMessages]
  · intro hno
    rcases exists_outcome_cases env with ⟨he, hc⟩ | ⟨he, hc⟩ | he | ⟨what, he⟩
    · exact absurd ⟨he, hc⟩ hno
    · rw [checkAndLaunch_launch_failed g env hwnd he hc]
      simp only [closedHandles_append, closedHandles_workerPrologue,
        closedHandles_UpdateProgress]
      simp [closedHandles]
    · rw [checkAndLaunch_missing g env hwnd he]
      simp only [closedHandles_append, closedHandles_workerPrologue]
      simp [closedHandles]
    · rw [checkAndLaunch_threw g env hwnd what he]
      simp only [closedHandles_append, closedHandles_workerPrologue]
      simp [closedHandles]

/-- C10. `checkAndLaunch` calls `CreateProcessW` once when the existence check
answers `true` and not at all otherwise; the call has no application name, a
command line that is exactly the computed target path, creation flags `0`, no
environment block, no current directory, handle inheritance off, and a
`STARTUPINFOW` whose flags are `0` and whose three standard handles are null. -/
theorem C10_creation_arguments (g : Globals) (env : WorkerEnv) (hwnd : HANDLE) :
    createProcessCalls (checkAndLaunch g env hwnd)
      = (if env.exists_outcome = ExistsOutcome.returns true then [createProcessArgs env]
         else [])
    ∧ (createProcessArgs env).lpApplicationName = none
    ∧ (createProcessArgs env).lpCommandLine = some (exe_path env)
    ∧ (createProcessArgs env).dwCreationFlags = 0
    ∧ (createProcessArgs env).lpCurrentDirectory = none
    ∧ (createProcessArgs env).lpEnvironment = none
    ∧ (createProcessArgs env).bInheritHandles = FALSE
    ∧ (createProcessArgs env).lpStartupInfo.dwFlags = 0
    ∧ (createProcessArgs env).lpStartupInfo.hStdInput = NULL
    ∧ (createProcessArgs env).lpStartupInfo.hStdOutput = NULL
    ∧ (createProcessArgs env).lpStartupInfo.hStdError = NULL := by
  refine ⟨?_, rfl, rfl, rfl, rfl, rfl, rfl, rfl, rfl, rfl, rfl⟩
  rcases exists_outcome_cases env with ⟨he, hc⟩ | ⟨he, hc⟩ | he | ⟨what, he⟩
  · rw [checkAndLaunch_launched g env hwnd he hc]
    simp only [createProcessCalls_append, createProcessCalls_workerPrologue,
      createProcessCalls_UpdateProgress]
    simp [createProcessCalls, he]
  · rw [checkAndLaunch_launch_failed g env hwnd he hc]
    simp only [createProcessCalls_append, createProcessCalls_workerPrologue,
      createProcessCalls_UpdateProgress]
    simp [createProcessCalls, he]
  · rw [checkAndLaunch_missing g env hwnd he]
    simp only [createProcessCalls_append, createProcessCalls_workerPrologue]
    simp [createProcessCalls, he]
  · rw [checkAndLaunch_threw g env hwnd what he]
    simp only [createProcessCalls_append, createProcessCalls_workerPrologue]
    simp [createProcessCalls, he]

end NokiLauncher
